import Mathlib

/-!
Verification development for the Mafia game orchestration engine
(`src/game/gameState.ts`, `src/game/roles.ts`, `src/game/phases.ts`,
`src/game/aiPlayer.ts` and the slash-command handlers).

The TypeScript sources are shallowly embedded: JS objects keyed by strings
become association lists in insertion order (matching `Object.values` /
`Object.entries` enumeration order for string keys), in-place mutation
becomes explicit state passing, `async` control flow becomes pure functions
parameterised by the outcomes of their awaited collaborator calls
(channel fetches, DM sends, model responses, `Math.random` draws), and the
module-level re-entrancy sets (`resolvingNightGames`, `resolvingVoteGames`)
become explicit boolean markers on an engine state.
-/

namespace Mafia

/-- `Role` from `gameState.ts`. -/
inductive Role where
  | mafia
  | detective
  | doctor
  | civilian
deriving DecidableEq, Repr

/-- `Phase` from `gameState.ts`. -/
inductive Phase where
  | lobby
  | night
  | day
  | vote
  | ended
deriving DecidableEq, Repr

/-- The night-action kinds stored in `NightState.actionsReceived`. -/
inductive ActionKind where
  | kill
  | protect
  | investigate
deriving DecidableEq, Repr

/-- `PlayerState` from `gameState.ts` (with the `isAI` flag used by
`phases.ts` / `aiPlayer.ts`). -/
structure PlayerState where
  id : String
  name : String
  role : Role
  alive : Bool
  protectedLastNight : Bool
  lastProtectedId : Option String
  selfProtectUsed : Bool
  isAI : Bool
deriving DecidableEq, Repr

/-- `NightState` from `gameState.ts`. -/
structure NightState where
  killTarget : Option String
  protectTarget : Option String
  investigateTarget : Option String
  actionsReceived : List ActionKind
deriving DecidableEq, Repr

/-- `VoteState` from `gameState.ts`: `votes` is voterId → targetId and
`tally` is targetId → count, both JS objects modelled as association
lists in insertion order. -/
structure VoteState where
  votes : List (String × String)
  tally : List (String × Nat)
deriving DecidableEq, Repr

/-- The public `gameLog` entries produced by the `logEvent` call sites,
tagged by call site instead of by formatted string.  The payload fields
carry exactly the game data interpolated into the corresponding template
string. -/
inductive LogEntry where
  | gameStart (names : List String)
  | nightSaved (round : Nat)
  | nightKilled (round : Nat) (name : String)
  | nightNoKill (round : Nat)
  | dayMessage (round : Nat) (name : String) (text : String)
  | voteEliminated (round : Nat) (name : String) (role : Role)
  | mafiaTargetedSomeone (round : Nat)
  | detectiveInvestigated (round : Nat) (targetName : String) (isMafia : Bool)
  | doctorChoseProtect (round : Nat)
deriving DecidableEq, Repr

/-- Whether a public log entry discloses a detective investigation
outcome (the target together with the mafia/not-mafia verdict). -/
def revealsInvestigation : LogEntry → Bool
  | LogEntry.detectiveInvestigated _ _ _ => true
  | _ => false

/-- The private `playerLogs` notes (role-result notes visible only to one
player), tagged by call site. -/
inductive PlayerNote where
  | investigated (round : Nat) (targetName : String) (isMafia : Bool)
  | choseProtect (round : Nat) (targetName : String)
deriving DecidableEq, Repr

/-- `GameState` from `gameState.ts`.  The two timer handles are modelled
as booleans (a pending timeout exists or not); collaborator handles
(channel ids, message ids) are kept as data. -/
structure GameState where
  phase : Phase
  gameNumber : Nat
  hostId : String
  guildId : String
  gameChannelId : String
  mafiaChannelId : Option String
  players : List PlayerState
  night : NightState
  vote : VoteState
  round : Nat
  phaseTimer : Bool
  reminderTimer : Bool
  tallyMessageId : Option String
  lastNightDeath : Option String
  lastNightSaved : Bool
  gameLog : List LogEntry
  playerLogs : List (String × List PlayerNote)
deriving DecidableEq, Repr

/-- `createNightState` from `gameState.ts`. -/
def createNightState : NightState :=
  { killTarget := none, protectTarget := none, investigateTarget := none,
    actionsReceived := [] }

/-- `createVoteState` from `gameState.ts`. -/
def createVoteState : VoteState := { votes := [], tally := [] }

/-- `clearTimers` from `gameState.ts`: cancels and nulls both timer
handles. -/
def clearTimersG (g : GameState) : GameState :=
  { g with phaseTimer := false, reminderTimer := false }

/-- `logEvent` from `aiPlayer.ts`: push onto the public log, then drop the
oldest entries beyond the 30-entry cap. -/
def logEvent (log : List LogEntry) (e : LogEntry) : List LogEntry :=
  let l := log ++ [e]
  if l.length > 30 then l.drop (l.length - 30) else l

/-- `(game.playerLogs[pid] ??= []).push(note)`: append to the player's
private note list, creating it on first use. -/
def pushPlayerLog (logs : List (String × List PlayerNote)) (pid : String)
    (note : PlayerNote) : List (String × List PlayerNote) :=
  if (logs.find? (fun e => e.1 == pid)).isSome then
    logs.map (fun e => if e.1 == pid then (e.1, e.2 ++ [note]) else e)
  else
    logs ++ [(pid, [note])]

/-! ### roles.ts / winCheck.ts -/

/-- `RoleBalance` from `roles.ts`. -/
structure RoleBalance where
  mafia : Nat
  detective : Nat
  doctor : Nat
  civilian : Nat
deriving DecidableEq, Repr

/-- `BALANCE_TABLE` from `roles.ts`, keyed by player count. -/
def BALANCE_TABLE : Nat → Option RoleBalance
  | 5 => some { mafia := 1, detective := 1, doctor := 0, civilian := 3 }
  | 6 => some { mafia := 1, detective := 1, doctor := 1, civilian := 3 }
  | 7 => some { mafia := 2, detective := 1, doctor := 1, civilian := 3 }
  | 8 => some { mafia := 2, detective := 1, doctor := 1, civilian := 4 }
  | _ => none

/-- The initial `roles` array built from a balance entry in
`assignRoles`. -/
def baseRoles (b : RoleBalance) : List Role :=
  List.replicate b.mafia Role.mafia ++
    List.replicate b.detective Role.detective ++
    List.replicate b.doctor Role.doctor ++
    List.replicate b.civilian Role.civilian

/-- One `[roles[i], roles[j]] = [roles[j], roles[i]]` destructuring swap.
Out-of-range indices (impossible at the source call site) leave the list
unchanged. -/
def swapList {α : Type} (l : List α) (i j : Nat) : List α :=
  match l[i]?, l[j]? with
  | some a, some b => (l.set i b).set j a
  | _, _ => l

/-- The Fisher–Yates loop of `assignRoles`: for `i` from `n` down to `1`,
swap index `i` with index `r i` (the source draws
`j = Math.floor(Math.random() * (i + 1))`; `r` is that random oracle). -/
def fyLoop {α : Type} (r : Nat → Nat) (l : List α) : Nat → List α
  | 0 => l
  | Nat.succ i => fyLoop r (swapList l (i + 1) (r (i + 1))) i

/-- The in-place Fisher–Yates shuffle of `assignRoles`. -/
def fisherYates {α : Type} (r : Nat → Nat) (l : List α) : List α :=
  fyLoop r l (l.length - 1)

/-- The thrown `Invalid player count` message of `assignRoles`. -/
def invalidPlayerCountMsg (n : Nat) : String :=
  "Invalid player count: " ++ toString n

/-- `assignRoles` from `roles.ts`: look up the balance table, shuffle the
dictated role multiset, and zip it onto the input identity order
(`playerIds.forEach((id, i) => result[id] = roles[i])`). -/
def assignRoles (r : Nat → Nat) (playerIds : List String) :
    Except String (List (String × Role)) :=
  let n := playerIds.length
  match BALANCE_TABLE n with
  | none => Except.error (invalidPlayerCountMsg n)
  | some balance =>
      let roles := fisherYates r (baseRoles balance)
      Except.ok (playerIds.zip roles)

/-- `WinResult` from `winCheck.ts` (`null` is `none`). -/
inductive WinResult where
  | town
  | mafia
deriving DecidableEq, Repr

/-- `checkWin` from `winCheck.ts`. -/
def checkWin (g : GameState) : Option WinResult :=
  let alive := g.players.filter (fun p => p.alive)
  let aliveMafia := alive.filter (fun p => p.role == Role.mafia)
  let aliveTown := alive.filter (fun p => p.role != Role.mafia)
  if aliveMafia.length = 0 then some WinResult.town
  else if aliveMafia.length ≥ aliveTown.length then some WinResult.mafia
  else none

/-- The `aliveMafia.length` count inside `checkWin`. -/
def aliveMafiaCount (g : GameState) : Nat :=
  ((g.players.filter (fun p => p.alive)).filter
    (fun p => p.role == Role.mafia)).length

/-- The `aliveTown.length` count inside `checkWin` (alive non-mafia). -/
def aliveTownCount (g : GameState) : Nat :=
  ((g.players.filter (fun p => p.alive)).filter
    (fun p => p.role != Role.mafia)).length

/-! ### String helpers for the name matching in commands and `aiPlayer.ts`

`.toLowerCase()` on the ASCII player names is modelled by an ASCII
lowercase map; `String.prototype.includes` by list-infix containment on
the character data. -/

/-- ASCII `toLowerCase` on one character. -/
def lowerChar (c : Char) : Char :=
  if 65 ≤ c.toNat ∧ c.toNat ≤ 90 then Char.ofNat (c.toNat + 32) else c

/-- ASCII `String.prototype.toLowerCase()`. -/
def lowerStr (s : String) : String := String.mk (s.data.map lowerChar)

/-- `hay.includes(pat)`. -/
def strIncludes (hay pat : String) : Bool := decide (pat.data <:+: hay.data)

/-- `Object.values(game.players).find(p => p.name.toLowerCase() ===
q.toLowerCase())`, the by-name target lookup shared by the command
handlers. -/
def findByName (players : List PlayerState) (q : String) : Option PlayerState :=
  players.find? (fun p => lowerStr p.name == lowerStr q)

/-- `pickFromList` from `aiPlayer.ts`: exact or substring case-insensitive
name match, else a uniformly random candidate (`rnd` is the random
oracle; the source draws `Math.floor(Math.random() * candidates.length)`).
Returns `none` only on an empty candidate list (`undefined` in JS). -/
def pickFromList (raw : String) (candidates : List PlayerState) (rnd : Nat) :
    Option PlayerState :=
  let lower := lowerStr raw
  match candidates.find? (fun p =>
      lowerStr p.name == lower || strIncludes lower (lowerStr p.name)) with
  | some p => some p
  | none => candidates[rnd % candidates.length]?

/-! ### phases.ts — night resolution -/

/-- `killed.alive = false` for the player whose id is `tid` (the in-place
mutation through the `killed` reference). -/
def applyKillTo (players : List PlayerState) (tid : String) : List PlayerState :=
  players.map (fun p => if p.id == tid then { p with alive := false } else p)

/-- Step 4 of night resolution: every doctor's `protectedLastNight` /
`lastProtectedId` is updated from `protectTarget`. -/
def updateDoctorFlags (players : List PlayerState) (protectTarget : Option String) :
    List PlayerState :=
  players.map (fun p =>
    if p.role == Role.doctor then
      { p with protectedLastNight := protectTarget.isSome,
               lastProtectedId := protectTarget }
    else p)

/-- The `startDayPhase` state fragment: phase becomes `day` and the
night timers are cleared (announcements, channel unlock and the AI day
schedule touch no modelled game state; the new day timer is out of
scope here). -/
def startDayPhaseFrag (g : GameState) : GameState :=
  clearTimersG { g with phase := Phase.day }

/-- The `startNightPhase` state fragment: phase becomes `night` with a
fresh `NightState` and timers cleared. -/
def startNightPhaseFrag (g : GameState) : GameState :=
  clearTimersG { g with phase := Phase.night, night := createNightState }

/-- The `endGame` state fragment: timers cleared, phase `ended` (the
announcement, channel archival and registry removal touch no modelled
game state). -/
def endGameFrag (g : GameState) : GameState :=
  clearTimersG { g with phase := Phase.ended }

/-- The body of `resolveNight` from `phases.ts` (the `try` block, after
the phase and re-entrancy guards).  `dmOk` is the outcome of the
detective-result DM: `sendDM` catches every transport error, so the
resolution is independent of it. -/
def resolveNightBody (dmOk : Bool) (g : GameState) : GameState :=
  let g1 := clearTimersG g
  let killTarget := g1.night.killTarget
  let protectTarget := g1.night.protectTarget
  let investigateTarget := g1.night.investigateTarget
  -- Doctor saves?
  let saved : Bool :=
    match killTarget with
    | some kt => protectTarget == some kt
    | none => false
  let killed : Option PlayerState :=
    match killTarget with
    | some kt =>
        if protectTarget == some kt then none
        else g1.players.find? (fun p => p.id == kt)
    | none => none
  let players1 :=
    match killTarget with
    | some kt =>
        if protectTarget == some kt then g1.players
        else applyKillTo g1.players kt
    | none => g1.players
  -- Update every doctor's last-night-protect flags
  let players2 := updateDoctorFlags players1 protectTarget
  -- Detective result: private note (and DM for humans; `dmOk` ignored
  -- because `sendDM` swallows failures)
  let playerLogs2 :=
    match investigateTarget with
    | some it =>
        match players2.find? (fun p => p.role == Role.detective && p.alive) with
        | some det =>
            let target := players2.find? (fun p => p.id == it)
            let isMafia :=
              match target with
              | some t => t.role == Role.mafia
              | none => false
            let tName :=
              match target with
              | some t => t.name
              | none => "?"
            pushPlayerLog g1.playerLogs det.id
              (PlayerNote.investigated g1.round tName isMafia)
        | none => g1.playerLogs
    | none => g1.playerLogs
  let _ := dmOk
  let gameLog2 :=
    if saved then logEvent g1.gameLog (LogEntry.nightSaved g1.round)
    else
      match killed with
      | some k => logEvent g1.gameLog (LogEntry.nightKilled g1.round k.name)
      | none => logEvent g1.gameLog (LogEntry.nightNoKill g1.round)
  let g2 := { g1 with
    players := players2,
    playerLogs := playerLogs2,
    gameLog := gameLog2,
    lastNightDeath := killed.map (fun k => k.id),
    lastNightSaved := saved }
  match checkWin g2 with
  | some _ => endGameFrag g2
  | none => startDayPhaseFrag g2

/-! ### phases.ts — vote tally and vote resolution -/

/-- One `tally[targetId] = (tally[targetId] ?? 0) + 1` step of the tally
rebuild, preserving JS object insertion order. -/
def bumpTally (t : List (String × Nat)) (target : String) : List (String × Nat) :=
  if (t.find? (fun e => e.1 == target)).isSome then
    t.map (fun e => if e.1 == target then (e.1, e.2 + 1) else e)
  else t ++ [(target, 1)]

/-- The tally rebuild loop of `updateVoteTally`: fold the vote targets in
voter insertion order into a fresh tally object. -/
def rebuildTally (votes : List (String × String)) : List (String × Nat) :=
  votes.foldl (fun t v => bumpTally t v.2) []

/-- The state effect of `updateVoteTally` when the tally message could be
fetched (`msgOk`); on any fetch failure it returns before rebuilding and
the cached tally is left stale. -/
def updateVoteTallyCore (msgOk : Bool) (g : GameState) : GameState :=
  if g.tallyMessageId = none then g
  else if msgOk = false then g
  else { g with vote := { g.vote with tally := rebuildTally g.vote.votes } }

/-- `Object.entries(tally).sort(([, a], [, b]) => b - a)`: the tally
entries sorted by count, descending (JS `Array.prototype.sort` is
stable; which tied-top entry lands first does not affect behaviour,
since a tie eliminates nobody). -/
def sortedTallyEntries (tally : List (String × Nat)) : List (String × Nat) :=
  tally.mergeSort (fun a b => Nat.ble b.2 a.2)

/-- The maximum count appearing in a tally (0 for an empty tally); the
count held by `entries[0]` after the descending sort. -/
def maxCount (tally : List (String × Nat)) : Nat :=
  tally.foldl (fun m e => max m e.2) 0

/-- The elimination decision of `resolveVote`: `none` when there are no
votes or the top count is tied, otherwise the unique top target. -/
def voteTopTarget (tally : List (String × Nat)) : Option String :=
  match sortedTallyEntries tally with
  | [] => none
  | (topId, topVotes) :: _ =>
      let tied := (sortedTallyEntries tally).filter (fun e => e.2 == topVotes)
      if tied.length > 1 then none else some topId

/-- The elimination block of `resolveVote`: flip the unique plurality
target's `alive` to false and log it (nothing happens on no-votes, a tie,
or a target id absent from `players`). -/
def applyVoteElim (g : GameState) : GameState :=
  match voteTopTarget g.vote.tally with
  | none => g
  | some topId =>
      match g.players.find? (fun p => p.id == topId) with
      | none => g
      | some elim =>
          { g with
            players := applyKillTo g.players topId,
            gameLog := logEvent g.gameLog
              (LogEntry.voteEliminated g.round elim.name elim.role) }

/-- The tail of `resolveVote`: win check, then either end the game or
increment `round` and start the next night. -/
def voteContinue (g : GameState) : GameState :=
  match checkWin g with
  | some _ => endGameFrag g
  | none => startNightPhaseFrag { g with round := g.round + 1 }

/-- The body of `resolveVote` from `phases.ts` (the `try` block, after
the phase and re-entrancy guards) on the resolved path: `channelOk` is
the outcome of the game-channel fetch (on failure the body returns
early, after `clearTimers` but before any elimination, win check, or
round increment), and the awaited `channel.send` of the branch taken is
modelled as succeeding.  `resolveVoteBodyFallible` below adds the send
outcome; this definition is its `sendOk = true` specialisation. -/
def resolveVoteBody (channelOk : Bool) (g : GameState) : GameState :=
  let g1 := clearTimersG g
  if channelOk = false then g1
  else voteContinue (applyVoteElim g1)

/-- Whether the `try` block of `resolveVote` reaches one of its three
awaited `channel.send` calls: the no-votes announcement, the tie
announcement, or the elimination announcement.  Only the branch whose
unique top id is absent from `players` sends nothing. -/
def voteSendExecuted (g : GameState) : Bool :=
  match voteTopTarget g.vote.tally with
  | none => true
  | some topId => (g.players.find? (fun p => p.id == topId)).isSome

/-- The body of `resolveVote` with both collaborator outcomes explicit:
`channelOk` is the game-channel fetch and `sendOk` the awaited
`channel.send` of the branch taken — none of the three sends is wrapped
in a catch, so a send rejection propagates out of the `try` block.  The
elimination block mutates `alive` and the log *before* its send, so on
a failed send the body aborts with the elimination applied but the win
evaluation, the round increment and the phase transition skipped. -/
def resolveVoteBodyFallible (channelOk sendOk : Bool) (g : GameState) : GameState :=
  let g1 := clearTimersG g
  if channelOk = false then g1
  else
    let g2 := applyVoteElim g1
    if sendOk = false ∧ voteSendExecuted g1 = true then g2
    else voteContinue g2

/-! ### The re-entrancy guards of `resolveNight` / `resolveVote`

`resolvingNightGames` / `resolvingVoteGames` are module-level sets keyed
by `gameChannelId`; for a single game they are the two boolean markers
below.  `resolveNight` / `resolveVote` return immediately when the phase
is wrong or the marker is set, otherwise run their body with the marker
held and clear it in a `finally`.  The `...BodyRuns` counters count
completed body executions (for the vote body, executions that got past
the channel fetch and could mutate state). -/
structure EngineState where
  game : GameState
  nightMarker : Bool
  voteMarker : Bool
  nightBodyRuns : Nat
  voteBodyRuns : Nat
deriving DecidableEq, Repr

/-- `resolveNight` from `phases.ts`: guards, then the body with the
in-flight marker held for its duration and cleared in `finally`. -/
def resolveNight (dmOk : Bool) (s : EngineState) : EngineState :=
  if s.game.phase ≠ Phase.night then s
  else if s.nightMarker then s
  else
    { s with
      game := resolveNightBody dmOk s.game,
      nightMarker := false,
      nightBodyRuns := s.nightBodyRuns + 1 }

/-- `resolveVote` from `phases.ts`: guards, then the body with the
in-flight marker held for its duration and cleared in `finally`. -/
def resolveVote (channelOk : Bool) (s : EngineState) : EngineState :=
  if s.game.phase ≠ Phase.vote then s
  else if s.voteMarker then s
  else
    { s with
      game := resolveVoteBody channelOk s.game,
      voteMarker := false,
      voteBodyRuns := s.voteBodyRuns + (if channelOk then 1 else 0) }

/-- `resolveVote` with the send outcome explicit: guards, then
`resolveVoteBodyFallible`, with the `finally` clearing the in-flight marker
even when the body aborted on a send exception. -/
def resolveVoteFallible (channelOk sendOk : Bool) (s : EngineState) : EngineState :=
  if s.game.phase ≠ Phase.vote then s
  else if s.voteMarker then s
  else
    { s with
      game := resolveVoteBodyFallible channelOk sendOk s.game,
      voteMarker := false,
      voteBodyRuns := s.voteBodyRuns + (if channelOk then 1 else 0) }

/-- The state of a game mid-resolution: the marker has been added and the
body has not yet completed.  Any concurrent trigger that fires at a
suspension point inside the body observes exactly this state. -/
def midResolutionNight (s : EngineState) : EngineState :=
  { s with nightMarker := true }

/-- Vote-side analogue of `midResolutionNight`. -/
def midResolutionVote (s : EngineState) : EngineState :=
  { s with voteMarker := true }

/-! ### aiPlayer.ts (Groq variant) — rate-limit retry in `ask`

The outbound call itself is abstracted by an oracle list of per-attempt
outcomes; everything the retry loop and `parseRetryDelay` do with those
outcomes is modelled exactly.  Delays are in milliseconds; the
provider-supplied seconds are rationals (`parseFloat` results). -/

/-- `MIN_RETRY_MS` from `aiPlayer.ts`. -/
def MIN_RETRY_MS : Int := 5000

/-- `MAX_RETRIES` from `aiPlayer.ts`. -/
def MAX_RETRIES : Nat := 3

/-- A Groq request error as observed by `ask` / `parseRetryDelay`:
`retryAfterHeader` is the numeric value of the structured `retry-after`
header when present and parseable, `msgRetrySeconds` the delay matched
out of the free-text error message. -/
structure ProviderError where
  status : Nat
  retryAfterHeader : Option ℚ
  msgRetrySeconds : Option ℚ
deriving DecidableEq

/-- `parseRetryDelay` from `aiPlayer.ts`: structured header first, then
the free-text match, each ceiled to whole seconds in ms and floored at
`MIN_RETRY_MS`; 60 s when neither yields a number. -/
def parseRetryDelay (e : ProviderError) : Int :=
  match e.retryAfterHeader with
  | some s => max (⌈s⌉ * 1000) MIN_RETRY_MS
  | none =>
      match e.msgRetrySeconds with
      | some s => max (⌈s⌉ * 1000) MIN_RETRY_MS
      | none => 60000

/-- The outcome of one underlying Groq call. -/
inductive AttemptOutcome where
  | success (content : String)
  | failure (e : ProviderError)
deriving DecidableEq

/-- The retry loop of `ask` from `aiPlayer.ts`, over the oracle of
underlying call outcomes.  Returns the produced result (the succeeding
attempt's content, or `''`), the number of underlying calls made, and
the list of backoff delays slept before retries.  (The attempt-local
output sanitisation `cleanModelOutput` is a pure string map on the
returned content and is not modelled here.) -/
def askRun : Nat → List AttemptOutcome → String × Nat × List Int
  | _, [] => ("", 0, [])
  | attempt, o :: rest =>
      match o with
      | AttemptOutcome.success c => (c, 1, [])
      | AttemptOutcome.failure e =>
          if e.status = 429 ∧ attempt < MAX_RETRIES then
            let d := parseRetryDelay e
            let r := askRun (attempt + 1) rest
            (r.1, r.2.1 + 1, d :: r.2.2)
          else ("", 1, [])

/-- `ask` from `aiPlayer.ts` (Groq variant): the loop starting at
attempt 1. -/
def ask (outcomes : List AttemptOutcome) : String × Nat × List Int :=
  askRun 1 outcomes

/-! ### aiPlayer.ts — AI night actions (Groq and Gemini variants)

Both are `async`; the model response of the single `ask` is the `raw`
parameter, the random fallback draw is `rnd`, and for the Groq mafia
branch `inFlight` is the `mafiaKillQuerying` per-game marker observed on
entry. -/

/-- `runAINightAction` from the Groq variant of `aiPlayer.ts`. -/
def runAINightAction (g : GameState) (pid : String) (inFlight : Bool)
    (raw : String) (rnd : Nat) : GameState :=
  match g.players.find? (fun p => p.id == pid) with
  | none => g
  | some player =>
    let alive := g.players.filter (fun p => p.alive)
    if player.role == Role.mafia then
      if ActionKind.kill ∈ g.night.actionsReceived then g
      else if inFlight then g
      else
        let targets := alive.filter (fun p =>
          p.role != Role.mafia && p.id != player.id)
        if targets.length = 0 then g
        else
          -- `ask` happens here; afterwards the staleness re-check
          if ActionKind.kill ∈ g.night.actionsReceived then g
          else
            match pickFromList raw targets rnd with
            | none => g
            | some target =>
                { g with night := { g.night with
                    killTarget := some target.id,
                    actionsReceived :=
                      if ActionKind.kill ∈ g.night.actionsReceived then
                        g.night.actionsReceived
                      else g.night.actionsReceived ++ [ActionKind.kill] } }
    else if player.role == Role.detective then
      if ActionKind.investigate ∈ g.night.actionsReceived then g
      else
        let targets := alive.filter (fun p => p.id != player.id)
        if targets.length = 0 then g
        else
          if ActionKind.investigate ∈ g.night.actionsReceived then g
          else
            match pickFromList raw targets rnd with
            | none => g
            | some target =>
                let isMafia := target.role == Role.mafia
                { g with
                  night := { g.night with
                    investigateTarget := some target.id,
                    actionsReceived :=
                      if ActionKind.investigate ∈ g.night.actionsReceived then
                        g.night.actionsReceived
                      else g.night.actionsReceived ++ [ActionKind.investigate] },
                  playerLogs := pushPlayerLog g.playerLogs player.id
                    (PlayerNote.investigated g.round target.name isMafia) }
    else if player.role == Role.doctor then
      if ActionKind.protect ∈ g.night.actionsReceived then g
      else
        let targets := alive.filter (fun p =>
          !(some p.id == player.lastProtectedId && decide (g.round > 1)) &&
            !(p.id == player.id && player.selfProtectUsed))
        if targets.length = 0 then g
        else
          if ActionKind.protect ∈ g.night.actionsReceived then g
          else
            match pickFromList raw targets rnd with
            | none => g
            | some target =>
                let players2 :=
                  if target.id == player.id then
                    g.players.map (fun p =>
                      if p.id == player.id then { p with selfProtectUsed := true }
                      else p)
                  else g.players
                { g with
                  players := players2,
                  night := { g.night with
                    protectTarget := some target.id,
                    actionsReceived :=
                      if ActionKind.protect ∈ g.night.actionsReceived then
                        g.night.actionsReceived
                      else g.night.actionsReceived ++ [ActionKind.protect] },
                  playerLogs := pushPlayerLog g.playerLogs player.id
                    (PlayerNote.choseProtect g.round target.name) }
    else g

/-- `runAINightAction` from the Gemini variant of `aiPlayer.ts` (the
older concatenated copy in the same file): no `mafiaKillQuerying` guard,
no post-`ask` staleness re-check, and each branch reports through the
public `logEvent` — the detective branch writes the investigated name
and the mafia/not-mafia verdict to the public log. -/
def runAINightActionGemini (g : GameState) (pid : String)
    (raw : String) (rnd : Nat) : GameState :=
  match g.players.find? (fun p => p.id == pid) with
  | none => g
  | some player =>
    let alive := g.players.filter (fun p => p.alive)
    if player.role == Role.mafia then
      if ActionKind.kill ∈ g.night.actionsReceived then g
      else
        let targets := alive.filter (fun p =>
          p.role != Role.mafia && p.id != player.id)
        if targets.length = 0 then g
        else
          match pickFromList raw targets rnd with
          | none => g
          | some target =>
              { g with
                night := { g.night with
                  killTarget := some target.id,
                  actionsReceived := g.night.actionsReceived ++ [ActionKind.kill] },
                gameLog := logEvent g.gameLog
                  (LogEntry.mafiaTargetedSomeone g.round) }
    else if player.role == Role.detective then
      if ActionKind.investigate ∈ g.night.actionsReceived then g
      else
        let targets := alive.filter (fun p => p.id != player.id)
        if targets.length = 0 then g
        else
          match pickFromList raw targets rnd with
          | none => g
          | some target =>
              let isMafia := target.role == Role.mafia
              { g with
                night := { g.night with
                  investigateTarget := some target.id,
                  actionsReceived :=
                    g.night.actionsReceived ++ [ActionKind.investigate] },
                gameLog := logEvent g.gameLog
                  (LogEntry.detectiveInvestigated g.round target.name isMafia) }
    else if player.role == Role.doctor then
      if ActionKind.protect ∈ g.night.actionsReceived then g
      else
        let targets := alive.filter (fun p =>
          !(some p.id == player.lastProtectedId && decide (g.round > 1)) &&
            !(p.id == player.id && player.selfProtectUsed))
        if targets.length = 0 then g
        else
          match pickFromList raw targets rnd with
          | none => g
          | some target =>
              let players2 :=
                if target.id == player.id then
                  g.players.map (fun p =>
                    if p.id == player.id then { p with selfProtectUsed := true }
                    else p)
                else g.players
              { g with
                players := players2,
                night := { g.night with
                  protectTarget := some target.id,
                  actionsReceived :=
                    g.night.actionsReceived ++ [ActionKind.protect] },
                gameLog := logEvent g.gameLog
                  (LogEntry.doctorChoseProtect g.round) }
    else g

/-! ### Slash-command action handlers

Each handler is modelled as a pure function from the current `GameState`
(the game already looked up in the registry) and the interaction's
arguments to a result and the updated state; the ephemeral reply text is
abstracted into the result tag.  Rejection branches mirror the source's
early `return`s. -/

/-- The specific rejection reasons returned by the action handlers. -/
inductive CmdReject where
  | wrongPhase
  | notEligible
  | noTargetGiven
  | unknownName
  | targetNotInGame
  | targetDead
  | selfTarget
  | teammateTarget
  | duplicateSubmission
  | repeatProtect
  | selfProtectExhausted
deriving DecidableEq, Repr

/-- Outcome of an action-submission handler. -/
inductive CmdResult where
  | rejected (r : CmdReject)
  | accepted
deriving DecidableEq, Repr

/-- The dual `@mention` / `name:` target-argument resolution block shared
verbatim by `KillCommand`, `VoteCommand` and the retract-variant
`InvestigateCommand`. -/
def resolveTargetArg (players : List PlayerState)
    (targetUser targetName : Option String) : Except CmdReject PlayerState :=
  match targetName with
  | some q =>
      match findByName players q with
      | none => Except.error CmdReject.unknownName
      | some found => Except.ok found
  | none =>
      match targetUser with
      | some tid =>
          match players.find? (fun p => p.id == tid) with
          | none => Except.error CmdReject.targetNotInGame
          | some tp => Except.ok tp
      | none => Except.error CmdReject.noTargetGiven

/-- `KillCommand.execute` (the mafia `/kill` handler), given the game
found via the mafia secret channel. -/
def killExecute (g : GameState) (uid : String)
    (targetUser targetName : Option String) : CmdResult × GameState :=
  if g.phase ≠ Phase.night then (CmdResult.rejected CmdReject.wrongPhase, g)
  else
    match g.players.find? (fun p => p.id == uid) with
    | none => (CmdResult.rejected CmdReject.notEligible, g)
    | some player =>
      if player.role ≠ Role.mafia ∨ player.alive = false then
        (CmdResult.rejected CmdReject.notEligible, g)
      else if targetUser = none ∧ targetName = none then
        (CmdResult.rejected CmdReject.noTargetGiven, g)
      else
        match resolveTargetArg g.players targetUser targetName with
        | Except.error r => (CmdResult.rejected r, g)
        | Except.ok targetPlayer =>
          if targetPlayer.alive = false then
            (CmdResult.rejected CmdReject.targetDead, g)
          else if targetPlayer.id = uid then
            (CmdResult.rejected CmdReject.selfTarget, g)
          else if targetPlayer.role = Role.mafia then
            (CmdResult.rejected CmdReject.teammateTarget, g)
          else
            -- Set kill target (overrides previous entry from any mafia
            -- member); mark `kill` received if not already
            (CmdResult.accepted,
              { g with night := { g.night with
                  killTarget := some targetPlayer.id,
                  actionsReceived :=
                    if ActionKind.kill ∈ g.night.actionsReceived then
                      g.night.actionsReceived
                    else g.night.actionsReceived ++ [ActionKind.kill] } })

/-- `game.vote.votes[uid] = targetId`: JS object key update, preserving
insertion order for an existing voter and appending a new one. -/
def setVote (votes : List (String × String)) (uid targetId : String) :
    List (String × String) :=
  if (votes.find? (fun e => e.1 == uid)).isSome then
    votes.map (fun e => if e.1 == uid then (e.1, targetId) else e)
  else votes ++ [(uid, targetId)]

/-- `VoteCommand.execute` from `vote-command.ts`, given the game found in
the channel. -/
def voteExecute (g : GameState) (uid : String)
    (targetUser targetName : Option String) : CmdResult × GameState :=
  if g.phase ≠ Phase.vote then (CmdResult.rejected CmdReject.wrongPhase, g)
  else
    match g.players.find? (fun p => p.id == uid) with
    | none => (CmdResult.rejected CmdReject.notEligible, g)
    | some voter =>
      if voter.alive = false then (CmdResult.rejected CmdReject.notEligible, g)
      else if targetUser = none ∧ targetName = none then
        (CmdResult.rejected CmdReject.noTargetGiven, g)
      else
        match resolveTargetArg g.players targetUser targetName with
        | Except.error r => (CmdResult.rejected r, g)
        | Except.ok targetPlayer =>
          if targetPlayer.alive = false then
            (CmdResult.rejected CmdReject.targetDead, g)
          else if targetPlayer.id = uid then
            (CmdResult.rejected CmdReject.selfTarget, g)
          else
            (CmdResult.accepted,
              { g with vote := { g.vote with
                  votes := setVote g.vote.votes uid targetPlayer.id } })

/-- `ProtectCommand.execute` (the doctor `/protect` DM handler), given
the game found via the acting user.  The target argument is required
(`getUser('target', true)`). -/
def protectExecute (g : GameState) (uid targetId : String) :
    CmdResult × GameState :=
  if g.phase ≠ Phase.night then (CmdResult.rejected CmdReject.wrongPhase, g)
  else
    match g.players.find? (fun p => p.id == uid) with
    | none => (CmdResult.rejected CmdReject.notEligible, g)
    | some doctor =>
      if doctor.role ≠ Role.doctor ∨ doctor.alive = false then
        (CmdResult.rejected CmdReject.notEligible, g)
      else if ActionKind.protect ∈ g.night.actionsReceived then
        (CmdResult.rejected CmdReject.duplicateSubmission, g)
      else
        match g.players.find? (fun p => p.id == targetId) with
        | none => (CmdResult.rejected CmdReject.targetNotInGame, g)
        | some targetPlayer =>
          if targetPlayer.alive = false then
            (CmdResult.rejected CmdReject.targetDead, g)
          else if doctor.lastProtectedId = some targetId then
            (CmdResult.rejected CmdReject.repeatProtect, g)
          else if targetId = uid ∧ doctor.selfProtectUsed then
            (CmdResult.rejected CmdReject.selfProtectExhausted, g)
          else
            let players2 :=
              if targetId = uid then
                g.players.map (fun p =>
                  if p.id == uid then { p with selfProtectUsed := true } else p)
              else g.players
            (CmdResult.accepted,
              { g with
                players := players2,
                night := { g.night with
                  protectTarget := some targetId,
                  actionsReceived :=
                    g.night.actionsReceived ++ [ActionKind.protect] } })

/-- `InvestigateCommand.execute` from `investigate-command.ts` (the
strict variant: a duplicate submission is rejected outright).  The
target argument is required. -/
def investigateExecute (g : GameState) (uid targetId : String) :
    CmdResult × GameState :=
  if g.phase ≠ Phase.night then (CmdResult.rejected CmdReject.wrongPhase, g)
  else
    match g.players.find? (fun p => p.id == uid) with
    | none => (CmdResult.rejected CmdReject.notEligible, g)
    | some player =>
      if player.role ≠ Role.detective ∨ player.alive = false then
        (CmdResult.rejected CmdReject.notEligible, g)
      else if ActionKind.investigate ∈ g.night.actionsReceived then
        (CmdResult.rejected CmdReject.duplicateSubmission, g)
      else
        match g.players.find? (fun p => p.id == targetId) with
        | none => (CmdResult.rejected CmdReject.targetNotInGame, g)
        | some targetPlayer =>
          if targetPlayer.alive = false then
            (CmdResult.rejected CmdReject.targetDead, g)
          else if targetId = uid then
            (CmdResult.rejected CmdReject.selfTarget, g)
          else
            (CmdResult.accepted,
              { g with night := { g.night with
                  investigateTarget := some targetId,
                  actionsReceived :=
                    g.night.actionsReceived ++ [ActionKind.investigate] } })

/-- `InvestigateCommand.execute` from the retract variant (the unnamed
copy with "Allow changing target"): when `investigate` was already
submitted, the old mark is spliced out of `actionsReceived` *before* the
target argument is validated, so later rejections return with that
retraction already applied. -/
def investigateRetractExecute (g : GameState) (uid : String)
    (targetUser targetName : Option String) : CmdResult × GameState :=
  if g.phase ≠ Phase.night then (CmdResult.rejected CmdReject.wrongPhase, g)
  else
    match g.players.find? (fun p => p.id == uid) with
    | none => (CmdResult.rejected CmdReject.notEligible, g)
    | some player =>
      if player.role ≠ Role.detective ∨ player.alive = false then
        (CmdResult.rejected CmdReject.notEligible, g)
      else
        let g1 :=
          if ActionKind.investigate ∈ g.night.actionsReceived then
            { g with night := { g.night with
                actionsReceived :=
                  g.night.actionsReceived.erase ActionKind.investigate } }
          else g
        if targetUser = none ∧ targetName = none then
          (CmdResult.rejected CmdReject.noTargetGiven, g1)
        else
          match resolveTargetArg g1.players targetUser targetName with
          | Except.error r => (CmdResult.rejected r, g1)
          | Except.ok targetPlayer =>
            if targetPlayer.alive = false then
              (CmdResult.rejected CmdReject.targetDead, g1)
            else if targetPlayer.id = uid then
              (CmdResult.rejected CmdReject.selfTarget, g1)
            else
              (CmdResult.accepted,
                { g1 with night := { g1.night with
                    investigateTarget := some targetPlayer.id,
                    actionsReceived :=
                      g1.night.actionsReceived ++ [ActionKind.investigate] } })

/-! ## Concrete states for witnesses and counterexamples -/

/-- A player with the default flag values of game start. -/
def mkPlayer (id name : String) (role : Role) (alive : Bool) : PlayerState :=
  { id := id, name := name, role := role, alive := alive,
    protectedLastNight := false, lastProtectedId := none,
    selfProtectUsed := false, isAI := false }

/-- A game with the given roster, phase, night, vote and round. -/
def mkGame (players : List PlayerState) (phase : Phase) (night : NightState)
    (vote : VoteState) (round : Nat) : GameState :=
  { phase := phase, gameNumber := 1, hostId := "host", guildId := "guild",
    gameChannelId := "chan", mafiaChannelId := some "mchan",
    players := players, night := night, vote := vote, round := round,
    phaseTimer := true, reminderTimer := true, tallyMessageId := some "tmsg",
    lastNightDeath := none, lastNightSaved := false, gameLog := [],
    playerLogs := [] }

/-- A five-player roster: one mafia, one detective, three civilians. -/
def roster5 : List PlayerState :=
  [mkPlayer "m1" "Mallory" Role.mafia true,
   mkPlayer "d1" "Dana" Role.detective true,
   mkPlayer "c1" "Ana" Role.civilian true,
   mkPlayer "c2" "Ben" Role.civilian true,
   mkPlayer "c3" "Cleo" Role.civilian true]

/-- The engine state used by the C1 witness: a five-player night with
all actions in, both markers clear. -/
def engC1 : EngineState :=
  { game := mkGame roster5 Phase.night
      { killTarget := some "c1", protectTarget := none,
        investigateTarget := some "m1",
        actionsReceived := [ActionKind.kill, ActionKind.investigate] }
      createVoteState 1,
    nightMarker := false, voteMarker := false,
    nightBodyRuns := 0, voteBodyRuns := 0 }

/-- A six-player roster with two mafia members, for the duplicate-kill
scenarios. -/
def rosterTwoMafia : List PlayerState :=
  [mkPlayer "m1" "Mallory" Role.mafia true,
   mkPlayer "m2" "Mona" Role.mafia true,
   mkPlayer "d1" "Dana" Role.detective true,
   mkPlayer "c1" "Ana" Role.civilian true,
   mkPlayer "c2" "Ben" Role.civilian true,
   mkPlayer "c3" "Cleo" Role.civilian true]

/-- Night state in which the first mafia member has already recorded a
kill on `c1`. -/
def gKillRecorded : GameState :=
  mkGame rosterTwoMafia Phase.night
    { killTarget := some "c1", protectTarget := none,
      investigateTarget := none, actionsReceived := [ActionKind.kill] }
    createVoteState 1

/-- A roster whose detective is computer-controlled. -/
def rosterAIDetective : List PlayerState :=
  [mkPlayer "m1" "Mallory" Role.mafia true,
   { id := "ai:1:0", name := "Aria", role := Role.detective, alive := true,
     protectedLastNight := false, lastProtectedId := none,
     selfProtectUsed := false, isAI := true },
   mkPlayer "c1" "Ana" Role.civilian true,
   mkPlayer "c2" "Ben" Role.civilian true,
   mkPlayer "c3" "Cleo" Role.civilian true]

/-- A fresh night for the AI detective scenarios. -/
def gAIDetective : GameState :=
  mkGame rosterAIDetective Phase.night createNightState createVoteState 1

/-- A night whose (human) detective investigated the mafia member, ready
for resolution. -/
def gInvestigated : GameState :=
  mkGame roster5 Phase.night
    { killTarget := none, protectTarget := none,
      investigateTarget := some "m1",
      actionsReceived := [ActionKind.investigate] }
    createVoteState 1

/-- A night in which the detective has already recorded an
investigation, and `c3` is dead (for the rejected-resubmission
scenario). -/
def gResubmit : GameState :=
  mkGame
    [mkPlayer "m1" "Mallory" Role.mafia true,
     mkPlayer "d1" "Dana" Role.detective true,
     mkPlayer "c1" "Ana" Role.civilian true,
     mkPlayer "c2" "Ben" Role.civilian true,
     mkPlayer "c3" "Cleo" Role.civilian false]
    Phase.night
    { killTarget := none, protectTarget := none,
      investigateTarget := some "m1",
      actionsReceived := [ActionKind.investigate] }
    createVoteState 1

/-- A vote phase with a unique plurality on `c1` (three of five votes)
and a rebuilt tally. -/
def gVoteDecided : GameState :=
  mkGame roster5 Phase.vote createNightState
    { votes := [("m1", "c1"), ("d1", "c1"), ("c2", "c1"), ("c3", "c2")],
      tally := [("c1", 3), ("c2", 1)] }
    1

/-- Engine state around `gVoteDecided`, markers clear. -/
def engVoteDecided : EngineState :=
  { game := gVoteDecided, nightMarker := false, voteMarker := false,
    nightBodyRuns := 0, voteBodyRuns := 0 }

/-- The engine state used by the C4 witness: mafia kills `c1`, doctor
protects `c1`. -/
def engC4 : EngineState :=
  { game := mkGame roster5 Phase.night
      { killTarget := some "c1", protectTarget := some "c1",
        investigateTarget := none,
        actionsReceived := [ActionKind.kill, ActionKind.protect] }
      createVoteState 1,
    nightMarker := false, voteMarker := false,
    nightBodyRuns := 0, voteBodyRuns := 0 }

/-! ## Supporting lemmas -/

/-- `checkWin` expressed through the two alive counts. -/
theorem checkWin_eq_counts (g : GameState) :
    checkWin g =
      (if aliveMafiaCount g = 0 then some WinResult.town
       else if aliveTownCount g ≤ aliveMafiaCount g then some WinResult.mafia
       else none) := rfl

/-- Total-call bound for the retry loop: starting from attempt `a`, at
most `MAX_RETRIES - a + 1` underlying calls are made. -/
theorem askRun_calls_le (os : List AttemptOutcome) :
    ∀ a, (askRun a os).2.1 ≤ MAX_RETRIES - a + 1 := by
  induction os with
  | nil => intro a; simp [askRun]
  | cons o rest ih =>
      intro a
      cases o with
      | success c => simp [askRun]
      | failure e =>
          by_cases h : e.status = 429 ∧ a < MAX_RETRIES
          · have := ih (a + 1)
            simp only [askRun, if_pos h]
            have hlt : a < MAX_RETRIES := h.2
            omega
          · simp only [askRun, if_neg h]
            omega

/-- `updateDoctorFlags` never changes any id or alive flag. -/
theorem updateDoctorFlags_idAlive (l : List PlayerState) (pt : Option String) :
    (updateDoctorFlags l pt).map (fun p => (p.id, p.alive)) =
      l.map (fun p => (p.id, p.alive)) := by
  unfold updateDoctorFlags
  rw [List.map_map]
  apply List.map_congr_left
  intro p _
  by_cases h : p.role = Role.doctor <;> simp [h]

/-- `applyKillTo` flips exactly the alive flag of the targeted id. -/
theorem applyKillTo_idAlive (l : List PlayerState) (t : String) :
    (applyKillTo l t).map (fun p => (p.id, p.alive)) =
      l.map (fun p => (p.id, if p.id == t then false else p.alive)) := by
  unfold applyKillTo
  rw [List.map_map]
  apply List.map_congr_left
  intro p _
  by_cases h : p.id = t <;> simp [h]

/-- An id that is in the roster is found by the kill lookup, and the
found player carries that id. -/
theorem find?_of_mem_ids (l : List PlayerState) (t : String)
    (h : t ∈ l.map (fun p => p.id)) :
    ∃ p, l.find? (fun q => q.id == t) = some p ∧ p.id = t := by
  obtain ⟨p, hp, hpt⟩ := List.mem_map.mp h
  have hs : (l.find? (fun q => q.id == t)).isSome :=
    List.find?_isSome.mpr ⟨p, hp, by simp [hpt]⟩
  obtain ⟨q, hq⟩ := Option.isSome_iff_exists.mp hs
  refine ⟨q, hq, ?_⟩
  have := List.find?_some hq
  simpa using this

/-- The phase produced by a completed night-resolution body is `day` or
`ended`, never `night`. -/
theorem resolveNightBody_phase (dmOk : Bool) (g : GameState) :
    (resolveNightBody dmOk g).phase = Phase.day ∨
      (resolveNightBody dmOk g).phase = Phase.ended := by
  simp only [resolveNightBody]
  split <;> simp [endGameFrag, startDayPhaseFrag, clearTimersG]

/-- The phase produced by a completed vote-resolution body (with the
channel fetched) is `night` or `ended`, never `vote`. -/
theorem resolveVoteBody_phase (g : GameState) :
    (resolveVoteBody true g).phase = Phase.night ∨
      (resolveVoteBody true g).phase = Phase.ended := by
  simp only [resolveVoteBody, voteContinue]
  split
  · simp_all
  · split <;> simp [endGameFrag, startNightPhaseFrag, clearTimersG]

/-- Night-resolution body: the resulting roster is the kill application
followed by the doctor-flag update. -/
theorem resolveNightBody_players (dmOk : Bool) (g : GameState) :
    (resolveNightBody dmOk g).players =
      updateDoctorFlags
        (match g.night.killTarget with
         | some kt =>
             if g.night.protectTarget == some kt then g.players
             else applyKillTo g.players kt
         | none => g.players)
        g.night.protectTarget := by
  simp only [resolveNightBody]
  split <;> simp [endGameFrag, startDayPhaseFrag, clearTimersG]

/-- Night-resolution body: `lastNightSaved` is exactly "the kill target
was set and equal to the protect target". -/
theorem resolveNightBody_saved (dmOk : Bool) (g : GameState) :
    (resolveNightBody dmOk g).lastNightSaved =
      (match g.night.killTarget with
       | some kt => g.night.protectTarget == some kt
       | none => false) := by
  simp only [resolveNightBody]
  split <;> simp [endGameFrag, startDayPhaseFrag, clearTimersG]

/-- Night-resolution body: `lastNightDeath` is the id of the looked-up
victim, when there was an unprotected kill target. -/
theorem resolveNightBody_death (dmOk : Bool) (g : GameState) :
    (resolveNightBody dmOk g).lastNightDeath =
      Option.map (fun k => k.id)
        (match g.night.killTarget with
         | some kt =>
             if g.night.protectTarget == some kt then none
             else g.players.find? (fun p => p.id == kt)
         | none => none) := by
  simp only [resolveNightBody]
  split <;> simp [endGameFrag, startDayPhaseFrag, clearTimersG]

/-- Every `/kill` outcome is either an acceptance or a rejection that
returns the state unchanged. -/
theorem killExecute_cases (g : GameState) (uid : String)
    (tU tN : Option String) :
    (killExecute g uid tU tN).1 = CmdResult.accepted ∨
    (killExecute g uid tU tN).2 = g := by
  simp only [killExecute]
  repeat' split
  all_goals simp

/-- Every `/vote` outcome is either an acceptance or a rejection that
returns the state unchanged. -/
theorem voteExecute_cases (g : GameState) (uid : String)
    (tU tN : Option String) :
    (voteExecute g uid tU tN).1 = CmdResult.accepted ∨
    (voteExecute g uid tU tN).2 = g := by
  simp only [voteExecute]
  repeat' split
  all_goals simp

/-- Every `/protect` outcome is either an acceptance or a rejection that
returns the state unchanged. -/
theorem protectExecute_cases (g : GameState) (uid tid : String) :
    (protectExecute g uid tid).1 = CmdResult.accepted ∨
    (protectExecute g uid tid).2 = g := by
  simp only [protectExecute]
  repeat' split
  all_goals simp

/-- Every strict `/investigate` outcome is either an acceptance or a
rejection that returns the state unchanged. -/
theorem investigateExecute_cases (g : GameState) (uid tid : String) :
    (investigateExecute g uid tid).1 = CmdResult.accepted ∨
    (investigateExecute g uid tid).2 = g := by
  simp only [investigateExecute]
  repeat' split
  all_goals simp

/-- Every retract-variant `/investigate` outcome is an acceptance, a
rejection with the state unchanged, or a rejection whose returned state
has exactly the pending `investigate` mark spliced out. -/
theorem investigateRetractExecute_cases (g : GameState) (uid : String)
    (tU tN : Option String) :
    (investigateRetractExecute g uid tU tN).1 = CmdResult.accepted ∨
    (investigateRetractExecute g uid tU tN).2 = g ∨
    (ActionKind.investigate ∈ g.night.actionsReceived ∧
      (investigateRetractExecute g uid tU tN).2 =
        { g with night := { g.night with actionsReceived :=
            g.night.actionsReceived.erase ActionKind.investigate } }) := by
  simp only [investigateRetractExecute]
  repeat' split
  all_goals simp_all

/-- Folding `max` from any accumulator dominates the accumulator. -/
theorem le_foldl_max (l : List (String × Nat)) :
    ∀ acc : Nat, acc ≤ l.foldl (fun m e => max m e.2) acc := by
  induction l with
  | nil => intro acc; simp
  | cons x t ih =>
      intro acc
      have := ih (max acc x.2)
      simp only [List.foldl_cons]
      omega

/-- Every member's count is dominated by the `max` fold. -/
theorem mem_le_foldl_max (l : List (String × Nat)) :
    ∀ (acc : Nat) (x : String × Nat), x ∈ l →
      x.2 ≤ l.foldl (fun m e => max m e.2) acc := by
  induction l with
  | nil => intro acc x hx; simp at hx
  | cons y t ih =>
      intro acc x hx
      rcases List.mem_cons.mp hx with h | h
      · subst h
        have := le_foldl_max t (max acc x.2)
        simp only [List.foldl_cons]
        omega
      · simpa using ih (max acc y.2) x h

/-- The `max` fold is dominated by any bound on the accumulator and all
counts. -/
theorem foldl_max_le (l : List (String × Nat)) :
    ∀ (acc b : Nat), acc ≤ b → (∀ x ∈ l, x.2 ≤ b) →
      l.foldl (fun m e => max m e.2) acc ≤ b := by
  induction l with
  | nil => intro acc b hacc _; simpa using hacc
  | cons y t ih =>
      intro acc b hacc h
      simp only [List.foldl_cons]
      exact ih _ b (by
          have := h y (by simp)
          omega)
        (fun x hx => h x (by simp [hx]))

/-- The sorted tally entries are a permutation of the tally. -/
theorem sortedTallyEntries_perm (tally : List (String × Nat)) :
    (sortedTallyEntries tally).Perm tally :=
  List.mergeSort_perm tally _

/-- The sorted tally entries are pairwise descending in count. -/
theorem sortedTallyEntries_sorted (tally : List (String × Nat)) :
    (sortedTallyEntries tally).Pairwise
      (fun a b => Nat.ble b.2 a.2 = true) := by
  exact List.sorted_mergeSort
    (fun a b c h1 h2 => by
      simp only [Nat.ble_eq] at h1 h2 ⊢
      omega)
    (fun a b => by
      simp only [Bool.or_eq_true, Nat.ble_eq]
      omega)
    tally

/-- The head of the sorted tally entries holds the maximum count. -/
theorem sortedTallyEntries_head_max (tally : List (String × Nat))
    (top : String × Nat) (rest : List (String × Nat))
    (h : sortedTallyEntries tally = top :: rest) :
    top.2 = maxCount tally := by
  have hperm := sortedTallyEntries_perm tally
  have hsorted := sortedTallyEntries_sorted tally
  rw [h] at hperm hsorted
  have hub : ∀ x ∈ tally, x.2 ≤ top.2 := by
    intro x hx
    have hx2 : x ∈ top :: rest := hperm.mem_iff.mpr hx
    rcases List.mem_cons.mp hx2 with h2 | h2
    · subst h2; exact le_refl _
    · have := (List.pairwise_cons.mp hsorted).1 x h2
      simpa [Nat.ble_eq] using this
  have hmem : top ∈ tally := hperm.subset (by simp)
  apply le_antisymm
  · exact mem_le_foldl_max tally 0 top hmem
  · exact foldl_max_le tally 0 top.2 (by omega) hub

/-- A tie at the top count (two or more tally entries at the maximum)
eliminates nobody. -/
theorem voteTopTarget_tie (tally : List (String × Nat))
    (h : 2 ≤ (tally.filter (fun e => e.2 == maxCount tally)).length) :
    voteTopTarget tally = none := by
  unfold voteTopTarget
  cases hs : sortedTallyEntries tally with
  | nil => rfl
  | cons top rest =>
      obtain ⟨topId, topVotes⟩ := top
      have htop := sortedTallyEntries_head_max tally (topId, topVotes) rest hs
      simp only [] at htop
      have hfl : (((topId, topVotes) :: rest).filter
          (fun e => e.2 == topVotes)).length =
          (tally.filter (fun e => e.2 == topVotes)).length := by
        have hp := (sortedTallyEntries_perm tally).filter
          (fun e => e.2 == topVotes)
        rw [hs] at hp
        exact hp.length_eq
      simp only []
      rw [if_pos]
      rw [hfl, htop]
      omega

/-- A unique top-count entry is the eliminated target. -/
theorem voteTopTarget_unique (tally : List (String × Nat)) (t : String)
    (c : Nat)
    (h : tally.filter (fun e => e.2 == maxCount tally) = [(t, c)]) :
    voteTopTarget tally = some t := by
  unfold voteTopTarget
  cases hs : sortedTallyEntries tally with
  | nil =>
      have hperm := sortedTallyEntries_perm tally
      rw [hs] at hperm
      have hnil : tally = [] := hperm.symm.eq_nil
      rw [hnil] at h
      simp at h
  | cons top rest =>
      obtain ⟨topId, topVotes⟩ := top
      have htop := sortedTallyEntries_head_max tally (topId, topVotes) rest hs
      simp only [] at htop
      have hpf := (sortedTallyEntries_perm tally).filter
        (fun e => e.2 == maxCount tally)
      rw [hs, h] at hpf
      have hfs : ((topId, topVotes) :: rest).filter
          (fun e => e.2 == maxCount tally) = [(t, c)] := by
        cases hx : ((topId, topVotes) :: rest).filter
            (fun e => e.2 == maxCount tally) with
        | nil => rw [hx] at hpf; exact absurd hpf.symm.eq_nil (by simp)
        | cons y ys =>
            rw [hx] at hpf
            have hlen := hpf.length_eq
            simp at hlen
            have hy : y ∈ [(t, c)] := hpf.subset (by simp)
            simp at hy
            cases ys with
            | nil => simp [hy]
            | cons z zs => simp at hlen
      have htmem : (topId, topVotes) ∈
          ((topId, topVotes) :: rest).filter
            (fun e => e.2 == maxCount tally) := by
        apply List.mem_filter.mpr
        exact ⟨by simp, by simp [htop]⟩
      rw [hfs] at htmem
      simp at htmem
      have hfl : (((topId, topVotes) :: rest).filter
          (fun e => e.2 == topVotes)).length = 1 := by
        have hpred : (fun (e : String × Nat) => e.2 == topVotes) =
            (fun (e : String × Nat) => e.2 == maxCount tally) := by
          rw [htop]
        rw [hpred, hfs]
        rfl
      simp only []
      rw [if_neg]
      · rw [htmem.1]
      · rw [hfl]
        omega

/-- `applyKillTo` is the identity when the target id is not on the
roster. -/
theorem applyKillTo_not_found (players : List PlayerState) (t : String)
    (h : players.find? (fun p => p.id == t) = none) :
    applyKillTo players t = players := by
  unfold applyKillTo
  have hall := List.find?_eq_none.mp h
  calc players.map (fun p => if p.id == t then { p with alive := false } else p)
      = players.map id := by
        apply List.map_congr_left
        intro p hp
        simp [hall p hp]
    _ = players := List.map_id players

/-- `voteContinue` never touches the roster. -/
theorem voteContinue_players (g : GameState) :
    (voteContinue g).players = g.players := by
  unfold voteContinue
  split <;> simp [endGameFrag, startNightPhaseFrag, clearTimersG]

/-- `voteContinue` increments the round exactly when the win check says
the game continues. -/
theorem voteContinue_round (g : GameState) :
    (voteContinue g).round =
      (match checkWin g with
       | some _ => g.round
       | none => g.round + 1) := by
  unfold voteContinue
  split <;> simp_all [endGameFrag, startNightPhaseFrag, clearTimersG]

/-- `applyVoteElim` only touches the roster and the log. -/
theorem applyVoteElim_round (g : GameState) :
    (applyVoteElim g).round = g.round := by
  unfold applyVoteElim
  repeat' split
  all_goals simp

/-- `applyVoteElim` never changes the phase. -/
theorem applyVoteElim_phase (g : GameState) :
    (applyVoteElim g).phase = g.phase := by
  unfold applyVoteElim
  repeat' split
  all_goals simp

/-- The roster after `applyVoteElim` on a tally whose top target is
unique. -/
theorem applyVoteElim_players_of_top (g : GameState) (t : String)
    (h : voteTopTarget g.vote.tally = some t) :
    (applyVoteElim g).players = applyKillTo g.players t := by
  unfold applyVoteElim
  rw [h]
  simp only []
  cases hf : g.players.find? (fun p => p.id == t) with
  | none => exact (applyKillTo_not_found g.players t hf).symm
  | some elim => rfl

/-- The roster after `applyVoteElim` on a tally with no unique top
target. -/
theorem applyVoteElim_players_of_none (g : GameState)
    (h : voteTopTarget g.vote.tally = none) :
    (applyVoteElim g).players = g.players := by
  unfold applyVoteElim
  rw [h]

/-- Moving the element at index `k` to the head (writing `a` in its
place) permutes a cons of the original list. -/
theorem cons_set_perm {α : Type} (t : List α) :
    ∀ (k : Nat) (a b : α), t[k]? = some b →
      (b :: t.set k a).Perm (a :: t) := by
  induction t with
  | nil =>
      intro k a b h
      simp at h
  | cons c s ih =>
      intro k a b h
      cases k with
      | zero =>
          simp at h
          subst h
          simpa [List.set] using List.Perm.swap a c s
      | succ k =>
          simp at h
          have h1 : (b :: c :: s.set k a).Perm (c :: b :: s.set k a) :=
            List.Perm.swap c b _
          have h2 : (c :: b :: s.set k a).Perm (c :: a :: s) :=
            List.Perm.cons c (ih k a b h)
          have h3 : (c :: a :: s).Perm (a :: c :: s) := List.Perm.swap a c s
          simpa [List.set] using (h1.trans h2).trans h3

/-- A two-`set` swap of in-bounds positions is a permutation. -/
theorem set_set_perm {α : Type} :
    ∀ (l : List α) (i j : Nat) (a b : α),
      l[i]? = some a → l[j]? = some b → ((l.set i b).set j a).Perm l := by
  intro l
  induction l with
  | nil =>
      intro i j a b ha _
      simp at ha
  | cons c t ih =>
      intro i j a b ha hb
      cases i with
      | zero =>
          simp at ha
          subst ha
          cases j with
          | zero =>
              simp at hb
              subst hb
              simp [List.set]
          | succ k =>
              simp at hb
              simpa [List.set] using cons_set_perm t k c b hb
      | succ m =>
          simp at ha
          cases j with
          | zero =>
              simp at hb
              subst hb
              simpa [List.set] using cons_set_perm t m c a ha
          | succ k =>
              simp at hb
              simpa [List.set] using List.Perm.cons c (ih m k a b ha hb)

/-- A single Fisher–Yates destructuring swap is a permutation. -/
theorem swapList_perm {α : Type} (l : List α) (i j : Nat) :
    (swapList l i j).Perm l := by
  unfold swapList
  split
  · next a b ha hb => exact set_set_perm l i j a b ha hb
  · exact List.Perm.refl l

/-- The Fisher–Yates loop permutes its input. -/
theorem fyLoop_perm {α : Type} (r : Nat → Nat) :
    ∀ (n : Nat) (l : List α), (fyLoop r l n).Perm l := by
  intro n
  induction n with
  | zero => intro l; exact List.Perm.refl l
  | succ i ih =>
      intro l
      exact (ih _).trans (swapList_perm l (i + 1) (r (i + 1)))

/-- The Fisher–Yates shuffle of `assignRoles` permutes the role
multiset, for every random oracle. -/
theorem fisherYates_perm {α : Type} (r : Nat → Nat) (l : List α) :
    (fisherYates r l).Perm l :=
  fyLoop_perm r (l.length - 1) l

/-- `BALANCE_TABLE` as an if-chain over the player count. -/
theorem BALANCE_TABLE_eq (n : Nat) :
    BALANCE_TABLE n =
      (if n = 5 then
        some { mafia := 1, detective := 1, doctor := 0, civilian := 3 }
      else if n = 6 then
        some { mafia := 1, detective := 1, doctor := 1, civilian := 3 }
      else if n = 7 then
        some { mafia := 2, detective := 1, doctor := 1, civilian := 3 }
      else if n = 8 then
        some { mafia := 2, detective := 1, doctor := 1, civilian := 4 }
      else none) := by
  match n with
  | 0 | 1 | 2 | 3 | 4 | 5 | 6 | 7 | 8 => rfl
  | m + 9 =>
      have e : BALANCE_TABLE (m + 9) = none := rfl
      rw [e, if_neg (by omega), if_neg (by omega), if_neg (by omega),
        if_neg (by omega)]

/-- A successful `assignRoles` is the zip of the identities with the
shuffled role list, whose multiset is the balance entry's. -/
theorem assignRoles_ok (r : Nat → Nat) (ids : List String) (b : RoleBalance)
    (hb : BALANCE_TABLE ids.length = some b)
    (hlen : (baseRoles b).length = ids.length) :
    assignRoles r ids =
      Except.ok (ids.zip (fisherYates r (baseRoles b))) ∧
    (ids.zip (fisherYates r (baseRoles b))).map Prod.fst = ids ∧
    ((ids.zip (fisherYates r (baseRoles b))).map Prod.snd).Perm
      (baseRoles b) := by
  have hroles : (fisherYates r (baseRoles b)).length = ids.length := by
    rw [(fisherYates_perm r (baseRoles b)).length_eq]
    exact hlen
  refine ⟨?_, ?_, ?_⟩
  · simp [assignRoles, hb]
  · exact List.map_fst_zip _ _ (by omega)
  · rw [List.map_snd_zip _ _ (by omega)]
    exact fisherYates_perm r (baseRoles b)

/-- One association-list entry per identity, from distinct keys covering
the identities. -/
theorem filter_fst_length_one (m : List (String × Role)) (ids : List String)
    (hfst : m.map Prod.fst = ids) (hnd : ids.Nodup) (id0 : String)
    (hmem : id0 ∈ ids) :
    (m.filter (fun e => e.1 == id0)).length = 1 := by
  rw [← List.countP_eq_length_filter]
  have h1 : m.countP (fun e => e.1 == id0) =
      (m.map Prod.fst).countP (fun x => x == id0) := by
    rw [List.countP_map]
    rfl
  rw [h1, hfst, ← List.count_eq_countP]
  exact List.count_eq_one_of_mem hnd hmem

/-! ## Claim theorems -/

/-- C2: `checkWin` depends only on currently-alive players: zero alive
mafia yields `town` (even with zero alive town), otherwise alive mafia ≥
alive non-mafia yields `mafia`, otherwise `null`; dead players count
toward neither side (filtering the roster to its alive members does not
change the verdict). -/
theorem c2_checkWin_spec (g : GameState) :
    (aliveMafiaCount g = 0 → checkWin g = some WinResult.town) ∧
    (aliveMafiaCount g ≠ 0 → aliveTownCount g ≤ aliveMafiaCount g →
      checkWin g = some WinResult.mafia) ∧
    (aliveMafiaCount g ≠ 0 → aliveMafiaCount g < aliveTownCount g →
      checkWin g = none) ∧
    (checkWin { g with players := g.players.filter (fun p => p.alive) } =
      checkWin g) := by
  refine ⟨?_, ?_, ?_, ?_⟩
  · intro h
    rw [checkWin_eq_counts, if_pos h]
  · intro h hle
    rw [checkWin_eq_counts, if_neg h, if_pos hle]
  · intro h hlt
    rw [checkWin_eq_counts, if_neg h, if_neg (by omega)]
  · simp [checkWin, List.filter_filter]

/-- C2 witness: a roster with one dead mafia and one alive civilian is a
town win; two alive mafia against one alive civilian is a mafia win. -/
theorem c2_checkWin_spec_witness :
    checkWin
      { phase := Phase.night, gameNumber := 1, hostId := "h", guildId := "g",
        gameChannelId := "ch", mafiaChannelId := none,
        players :=
          [{ id := "m1", name := "M1", role := Role.mafia, alive := false,
             protectedLastNight := false, lastProtectedId := none,
             selfProtectUsed := false, isAI := false },
           { id := "c1", name := "C1", role := Role.civilian, alive := true,
             protectedLastNight := false, lastProtectedId := none,
             selfProtectUsed := false, isAI := false }],
        night := createNightState, vote := createVoteState, round := 1,
        phaseTimer := false, reminderTimer := false, tallyMessageId := none,
        lastNightDeath := none, lastNightSaved := false, gameLog := [],
        playerLogs := [] } = some WinResult.town := by
  exact (c2_checkWin_spec _).1 (by decide)

/-- C7: `ask` retries a rate-limited (status 429) attempt up to 3 total
underlying calls, sleeping the `parseRetryDelay` backoff before each
retry (structured header, else free-text hint, each floored at 5 s;
else the 60 s default); a non-429 error yields `''` with no retry;
exhausting the retries yields `''`; a success within the budget returns
that attempt's content — two 429s then a success makes exactly 3 calls. -/
theorem c7_ask_rate_limit_retry :
    (∀ os, (ask os).2.1 ≤ MAX_RETRIES) ∧
    (∀ e os, e.status ≠ 429 →
      ask (AttemptOutcome.failure e :: os) = ("", 1, [])) ∧
    (∀ e1 e2 c os, e1.status = 429 → e2.status = 429 →
      ask (AttemptOutcome.failure e1 :: AttemptOutcome.failure e2 ::
          AttemptOutcome.success c :: os) =
        (c, 3, [parseRetryDelay e1, parseRetryDelay e2])) ∧
    (∀ e1 e2 e3 os, e1.status = 429 → e2.status = 429 →
      ask (AttemptOutcome.failure e1 :: AttemptOutcome.failure e2 ::
          AttemptOutcome.failure e3 :: os) =
        ("", 3, [parseRetryDelay e1, parseRetryDelay e2])) ∧
    (∀ e s, e.retryAfterHeader = some s → MIN_RETRY_MS ≤ parseRetryDelay e) ∧
    (∀ e s, e.retryAfterHeader = none → e.msgRetrySeconds = some s →
      MIN_RETRY_MS ≤ parseRetryDelay e) ∧
    (∀ e, e.retryAfterHeader = none → e.msgRetrySeconds = none →
      parseRetryDelay e = 60000) := by
  refine ⟨?_, ?_, ?_, ?_, ?_, ?_, ?_⟩
  · intro os
    have := askRun_calls_le os 1
    simpa [ask, MAX_RETRIES] using this
  · intro e os h
    simp [ask, askRun, h]
  · intro e1 e2 c os h1 h2
    simp [ask, askRun, h1, h2, MAX_RETRIES]
  · intro e1 e2 e3 os h1 h2
    simp [ask, askRun, h1, h2, MAX_RETRIES]
  · intro e s h
    rw [parseRetryDelay, h]
    exact le_max_right _ _
  · intro e s h h2
    rw [parseRetryDelay, h, h2]
    exact le_max_right _ _
  · intro e h h2
    rw [parseRetryDelay, h, h2]

/-- C1: Night and Vote resolution run their body at most once per phase
instance across the two independent triggers (phase-timeout timer and
all-actions-received / all-voted check): a call observing the in-flight
marker set, or the phase already moved on, returns the state unchanged;
a call that passes the guards runs the body exactly once and only then
has the marker cleared; a second sequential trigger after a completed
resolution is a no-op. -/
theorem c1_resolution_reentrancy :
    (∀ (s : EngineState) (dmOk : Bool), s.nightMarker = true →
      resolveNight dmOk s = s) ∧
    (∀ (s : EngineState) (dmOk : Bool), s.game.phase ≠ Phase.night →
      resolveNight dmOk s = s) ∧
    (∀ (s : EngineState) (dmOk : Bool), s.game.phase = Phase.night →
      s.nightMarker = false →
      (resolveNight dmOk s).nightMarker = false ∧
      (resolveNight dmOk s).nightBodyRuns = s.nightBodyRuns + 1 ∧
      (resolveNight dmOk s).game = resolveNightBody dmOk s.game) ∧
    (∀ (s : EngineState) (d1 d2 : Bool),
      resolveNight d2 (resolveNight d1 s) = resolveNight d1 s) ∧
    (∀ (s : EngineState) (c : Bool), s.voteMarker = true →
      resolveVote c s = s) ∧
    (∀ (s : EngineState) (c : Bool), s.game.phase ≠ Phase.vote →
      resolveVote c s = s) ∧
    (∀ (s : EngineState) (c : Bool), s.game.phase = Phase.vote →
      s.voteMarker = false →
      (resolveVote c s).voteMarker = false ∧
      (c = true → (resolveVote c s).voteBodyRuns = s.voteBodyRuns + 1) ∧
      (resolveVote c s).game = resolveVoteBody c s.game) ∧
    (∀ (s : EngineState) (c : Bool),
      resolveVote c (resolveVote true s) = resolveVote true s) := by
  refine ⟨?_, ?_, ?_, ?_, ?_, ?_, ?_, ?_⟩
  · intro s dmOk h
    by_cases hp : s.game.phase ≠ Phase.night <;> simp [resolveNight, hp, h]
  · intro s dmOk h
    simp [resolveNight, h]
  · intro s dmOk hph hm
    simp [resolveNight, hph, hm]
  · intro s d1 d2
    by_cases hp : s.game.phase = Phase.night
    · by_cases hm : s.nightMarker
      · simp [resolveNight, hp, hm]
      · have h1 : resolveNight d1 s =
            { s with
              game := resolveNightBody d1 s.game,
              nightMarker := false,
              nightBodyRuns := s.nightBodyRuns + 1 } := by
          simp [resolveNight, hp, hm]
        rw [h1]
        rcases resolveNightBody_phase d1 s.game with h | h <;>
          simp [resolveNight, h]
    · simp [resolveNight, hp]
  · intro s c h
    by_cases hp : s.game.phase ≠ Phase.vote <;> simp [resolveVote, hp, h]
  · intro s c h
    simp [resolveVote, h]
  · intro s c hph hm
    cases c <;> simp [resolveVote, hph, hm]
  · intro s c
    by_cases hp : s.game.phase = Phase.vote
    · by_cases hm : s.voteMarker
      · simp [resolveVote, hp, hm]
      · have h1 : resolveVote true s =
            { s with
              game := resolveVoteBody true s.game,
              voteMarker := false,
              voteBodyRuns := s.voteBodyRuns + 1 } := by
          simp [resolveVote, hp, hm]
        rw [h1]
        rcases resolveVoteBody_phase s.game with h | h <;>
          simp [resolveVote, h]
    · simp [resolveVote, hp]

/-- C1 witness: on a concrete in-progress night, a guarded call runs the
body exactly once and clears the marker; a mid-flight call (marker set)
and a post-completion call are both no-ops. -/
theorem c1_resolution_reentrancy_witness :
    ((resolveNight true engC1).nightMarker = false ∧
      (resolveNight true engC1).nightBodyRuns = engC1.nightBodyRuns + 1 ∧
      (resolveNight true engC1).game = resolveNightBody true engC1.game) ∧
    resolveNight true (midResolutionNight engC1) = midResolutionNight engC1 ∧
    resolveNight true (resolveNight true engC1) = resolveNight true engC1 := by
  refine ⟨c1_resolution_reentrancy.2.2.1 engC1 true rfl rfl, ?_, ?_⟩
  · exact c1_resolution_reentrancy.1 (midResolutionNight engC1) true rfl
  · exact c1_resolution_reentrancy.2.2.2.1 engC1 true true

/-- C4: night resolution — a protected kill (`killTarget` set and equal
to `protectTarget`) changes nobody's alive flag, sets `lastNightSaved`
and leaves `lastNightDeath` null; an unprotected kill flips exactly the
targeted player's alive flag to false and records the death; no kill
target means nobody dies regardless of `protectTarget`. -/
theorem c4_resolveNight_outcome (s : EngineState) (dmOk : Bool)
    (hph : s.game.phase = Phase.night) (hm : s.nightMarker = false) :
    (∀ t, s.game.night.killTarget = some t →
      s.game.night.protectTarget = some t →
      ((resolveNight dmOk s).game.players.map (fun p => (p.id, p.alive)) =
          s.game.players.map (fun p => (p.id, p.alive)) ∧
        (resolveNight dmOk s).game.lastNightSaved = true ∧
        (resolveNight dmOk s).game.lastNightDeath = none)) ∧
    (∀ t, s.game.night.killTarget = some t →
      s.game.night.protectTarget ≠ some t →
      ((resolveNight dmOk s).game.players.map (fun p => (p.id, p.alive)) =
          s.game.players.map
            (fun p => (p.id, if p.id == t then false else p.alive)) ∧
        (resolveNight dmOk s).game.lastNightSaved = false ∧
        (t ∈ s.game.players.map (fun p => p.id) →
          (resolveNight dmOk s).game.lastNightDeath = some t))) ∧
    (s.game.night.killTarget = none →
      ((resolveNight dmOk s).game.players.map (fun p => (p.id, p.alive)) =
          s.game.players.map (fun p => (p.id, p.alive)) ∧
        (resolveNight dmOk s).game.lastNightDeath = none)) := by
  have hg : (resolveNight dmOk s).game = resolveNightBody dmOk s.game := by
    simp [resolveNight, hph, hm]
  refine ⟨?_, ?_, ?_⟩
  · intro t hk hp
    rw [hg]
    refine ⟨?_, ?_, ?_⟩
    · rw [resolveNightBody_players, hk, hp]
      simp [updateDoctorFlags_idAlive]
    · rw [resolveNightBody_saved, hk, hp]
      simp
    · rw [resolveNightBody_death, hk, hp]
      simp
  · intro t hk hp
    have hpb : (s.game.night.protectTarget == some t) = false := by
      simpa using hp
    rw [hg]
    refine ⟨?_, ?_, ?_⟩
    · rw [resolveNightBody_players, hk]
      simp only [hpb, Bool.false_eq_true, if_false]
      rw [updateDoctorFlags_idAlive, applyKillTo_idAlive]
    · rw [resolveNightBody_saved, hk]
      simp [hpb]
    · intro hmem
      rw [resolveNightBody_death, hk]
      simp only [hpb, Bool.false_eq_true, if_false]
      obtain ⟨p, hfind, hid⟩ := find?_of_mem_ids s.game.players t hmem
      rw [hfind]
      simp [hid]
  · intro hk
    rw [hg]
    refine ⟨?_, ?_⟩
    · rw [resolveNightBody_players, hk]
      simp [updateDoctorFlags_idAlive]
    · rw [resolveNightBody_death, hk]
      simp

/-- C4 witness: the protected-kill case at a concrete night. -/
theorem c4_resolveNight_outcome_witness :
    (resolveNight true engC4).game.players.map (fun p => (p.id, p.alive)) =
        engC4.game.players.map (fun p => (p.id, p.alive)) ∧
      (resolveNight true engC4).game.lastNightSaved = true ∧
      (resolveNight true engC4).game.lastNightDeath = none :=
  (c4_resolveNight_outcome engC4 true rfl rfl).1 "c1" rfl rfl

/-- C7 witness: a 429 whose header says a 0-second wait (floored to
5 s), then a 429 with no hints (60 s default), then a success: exactly
3 underlying calls, returning the success. -/
theorem c7_ask_rate_limit_retry_witness :
    ask [AttemptOutcome.failure
          { status := 429, retryAfterHeader := some 0, msgRetrySeconds := none },
        AttemptOutcome.failure
          { status := 429, retryAfterHeader := none, msgRetrySeconds := none },
        AttemptOutcome.success "ok"] = ("ok", 3, [5000, 60000]) := by
  rw [c7_ask_rate_limit_retry.2.2.1 _ _ "ok" [] rfl rfl]
  norm_num [parseRetryDelay, MIN_RETRY_MS]

/-- C5 counterexample: with `kill` already in `actionsReceived` and the
recorded target `c1`, a second mafia member's `/kill` against `c2` is
accepted and *changes* the recorded kill target — the claimed
first-write-wins does not hold for the `/kill` command. -/
theorem c5_kill_overwrite_counterexample :
    ActionKind.kill ∈ gKillRecorded.night.actionsReceived ∧
    gKillRecorded.night.killTarget = some "c1" ∧
    (killExecute gKillRecorded "m2" (some "c2") none).1 = CmdResult.accepted ∧
    (killExecute gKillRecorded "m2" (some "c2") none).2.night.killTarget =
      some "c2" := by decide

/-- C5 (amended): once `kill` is in `actionsReceived`, an AI mafia night
action is a no-op (the recorded target is untouched); the `/kill`
command instead deliberately *overwrites* the recorded target with the
newly validated one ("overrides previous entry from any mafia member")
while leaving `actionsReceived` unchanged, so `kill` is still recorded
at most once. -/
theorem c5_kill_resubmission_amended :
    (∀ (g : GameState) (pid : String) (inFlight : Bool) (raw : String)
        (rnd : Nat) (p : PlayerState),
      g.players.find? (fun q => q.id == pid) = some p →
      p.role = Role.mafia →
      ActionKind.kill ∈ g.night.actionsReceived →
      runAINightAction g pid inFlight raw rnd = g) ∧
    (∀ (g : GameState) (uid : String) (tU tN : Option String)
        (tp u : PlayerState),
      g.phase = Phase.night →
      g.players.find? (fun p => p.id == uid) = some u →
      u.role = Role.mafia → u.alive = true →
      resolveTargetArg g.players tU tN = Except.ok tp →
      tp.alive = true → tp.id ≠ uid → tp.role ≠ Role.mafia →
      ActionKind.kill ∈ g.night.actionsReceived →
      killExecute g uid tU tN =
        (CmdResult.accepted,
          { g with night := { g.night with
              killTarget := some tp.id,
              actionsReceived := g.night.actionsReceived } })) := by
  constructor
  · intro g pid inFlight raw rnd p hfind hrole hk
    simp [runAINightAction, hfind, hrole, hk]
  · intro g uid tU tN tp u hph hfind hrole halive hres htalive htne htnm hk
    have hnn : ¬(tU = none ∧ tN = none) := by
      rintro ⟨h1, h2⟩
      rw [h1, h2] at hres
      simp [resolveTargetArg] at hres
    simp [killExecute, hph, hfind, hrole, halive, hnn, hres, htalive, htne,
      htnm, hk]

/-- C5 amended-claim witness: the concrete duplicate-kill scenario — the
AI path is a no-op, the `/kill` path overwrites. -/
theorem c5_kill_resubmission_amended_witness :
    runAINightAction gKillRecorded "m2" false "Ana" 0 = gKillRecorded ∧
    killExecute gKillRecorded "m2" (some "c2") none =
      (CmdResult.accepted,
        { gKillRecorded with night := { gKillRecorded.night with
            killTarget := some (mkPlayer "c2" "Ben" Role.civilian true).id,
            actionsReceived := gKillRecorded.night.actionsReceived } }) := by
  constructor
  · exact c5_kill_resubmission_amended.1 gKillRecorded "m2" false "Ana" 0
      (mkPlayer "m2" "Mona" Role.mafia true) (by decide) rfl (by decide)
  · exact c5_kill_resubmission_amended.2 gKillRecorded "m2" (some "c2") none
      (mkPlayer "c2" "Ben" Role.civilian true)
      (mkPlayer "m2" "Mona" Role.mafia true)
      rfl (by decide) rfl rfl rfl rfl (by decide) (by decide)
      (by decide)

/-- C6 evaluation: night resolution (`phases.ts`) and the Groq-variant
AI night action record the investigation outcome only in the acting
detective's private `playerLogs` and never in the public `gameLog` — but
the Gemini-variant `runAINightAction` (the older copy kept in
`aiPlayer.ts`) writes the investigated name and verdict to the public
`gameLog`, violating the invariant at the cited lines. -/
theorem c6_detective_leak_eval :
    ((resolveNightBody true gInvestigated).gameLog.any revealsInvestigation
        = false) ∧
    ((resolveNightBody true gInvestigated).playerLogs =
        [("d1", [PlayerNote.investigated 1 "Mallory" true])]) ∧
    ((runAINightAction gAIDetective "ai:1:0" false "Mallory" 0).gameLog.any
        revealsInvestigation = false) ∧
    ((runAINightAction gAIDetective "ai:1:0" false "Mallory" 0).playerLogs =
        [("ai:1:0", [PlayerNote.investigated 1 "Mallory" true])]) ∧
    ((runAINightActionGemini gAIDetective "ai:1:0" "Mallory" 0).gameLog.any
        revealsInvestigation = true) ∧
    ((runAINightActionGemini gAIDetective "ai:1:0" "Mallory" 0).gameLog =
        [LogEntry.detectiveInvestigated 1 "Mallory" true]) := by decide

unseal List.merge List.mergeSort in
/-- C10 counterexample: a vote phase with a unique plurality on `c1`;
when the game-channel fetch fails, `resolveVote` returns after clearing
the timers — nobody is eliminated, the round is not incremented, and
the phase is still `vote`, contrary to the claim that the transitions
still occur. -/
theorem c10_channel_failure_counterexample :
    voteTopTarget gVoteDecided.vote.tally = some "c1" ∧
    gVoteDecided.vote.tally = rebuildTally gVoteDecided.vote.votes ∧
    (resolveVote false engVoteDecided).game.players = gVoteDecided.players ∧
    (resolveVote false engVoteDecided).game.round = gVoteDecided.round ∧
    (resolveVote false engVoteDecided).game.phase = Phase.vote := by decide

/-- C10 (amended): collaborator failures are non-fatal only where the
code catches them — `sendDM` swallows its errors, so night resolution
is independent of the DM outcome, and with the game channel fetched and
its `channel.send` succeeding the vote pipeline is the full resolved
path.  The uncaught collaborator calls in `resolveVote` do abort the
state machine: a failed game-channel fetch returns after `clearTimers`
with no elimination, win evaluation or round increment; a failed
awaited `channel.send` aborts the win evaluation, round increment and
phase transition (in the elimination branch the elimination is already
applied), the phase staying `vote`; the in-flight marker is cleared
either way (`finally`). -/
theorem c10_collaborator_failures_amended :
    (∀ (g : GameState) (dmOk : Bool),
      resolveNightBody dmOk g = resolveNightBody true g) ∧
    (∀ (g : GameState) (channelOk : Bool),
      resolveVoteBodyFallible channelOk true g = resolveVoteBody channelOk g) ∧
    (∀ (s : EngineState) (sendOk : Bool),
      (resolveVoteFallible false sendOk s).game.players = s.game.players ∧
      (resolveVoteFallible false sendOk s).game.round = s.game.round ∧
      (resolveVoteFallible false sendOk s).game.phase = s.game.phase ∧
      (resolveVoteFallible false sendOk s).game.vote = s.game.vote) ∧
    (∀ s : EngineState, s.game.phase = Phase.vote → s.voteMarker = false →
      voteSendExecuted (clearTimersG s.game) = true →
      (resolveVoteFallible true false s).game =
          applyVoteElim (clearTimersG s.game) ∧
      (resolveVoteFallible true false s).game.round = s.game.round ∧
      (resolveVoteFallible true false s).game.phase = Phase.vote ∧
      (resolveVoteFallible true false s).voteMarker = false) ∧
    (∀ s : EngineState, s.game.phase = Phase.vote → s.voteMarker = false →
      (resolveVoteFallible true true s).game =
        voteContinue (applyVoteElim (clearTimersG s.game))) := by
  refine ⟨?_, ?_, ?_, ?_, ?_⟩
  · intro g dmOk
    rfl
  · intro g channelOk
    cases channelOk <;> simp [resolveVoteBodyFallible, resolveVoteBody]
  · intro s sendOk
    by_cases hp : s.game.phase = Phase.vote
    · by_cases hm : s.voteMarker
      · simp [resolveVoteFallible, hp, hm]
      · simp [resolveVoteFallible, resolveVoteBodyFallible, hp, hm, clearTimersG]
    · simp [resolveVoteFallible, hp]
  · intro s hp hm hsend
    have hg : (resolveVoteFallible true false s).game =
        applyVoteElim (clearTimersG s.game) := by
      simp [resolveVoteFallible, resolveVoteBodyFallible, hp, hm, hsend]
    refine ⟨hg, ?_, ?_, ?_⟩
    · rw [hg, applyVoteElim_round]
      rfl
    · rw [hg, applyVoteElim_phase]
      exact hp
    · simp [resolveVoteFallible, hp, hm]
  · intro s hp hm
    simp [resolveVoteFallible, resolveVoteBodyFallible, hp, hm]

unseal List.merge List.mergeSort in
/-- C10 amended-claim witness: on the decided concrete vote (unique
plurality on `c1`, on the roster, so the elimination send runs), the
failed-send call applies only the elimination — round and phase
untouched, marker cleared — and the all-successful call runs the full
pipeline. -/
theorem c10_collaborator_failures_amended_witness :
    voteSendExecuted (clearTimersG gVoteDecided) = true ∧
    ((resolveVoteFallible true false engVoteDecided).game =
        applyVoteElim (clearTimersG gVoteDecided) ∧
      (resolveVoteFallible true false engVoteDecided).game.round =
        engVoteDecided.game.round ∧
      (resolveVoteFallible true false engVoteDecided).game.phase = Phase.vote ∧
      (resolveVoteFallible true false engVoteDecided).voteMarker = false) ∧
    (resolveVoteFallible true true engVoteDecided).game =
      voteContinue (applyVoteElim (clearTimersG engVoteDecided.game)) := by
  refine ⟨by decide, ?_, ?_⟩
  · exact c10_collaborator_failures_amended.2.2.2.1 engVoteDecided rfl rfl
      (by decide)
  · exact c10_collaborator_failures_amended.2.2.2.2 engVoteDecided rfl rfl

/-- C8 counterexample: with an investigation already recorded, the
retract-variant `InvestigateCommand` rejects a resubmission against the
dead `c3` — but the returned state has lost the `investigate` mark, so
the rejected path *did* mutate `GameState`. -/
theorem c8_rejected_resubmission_counterexample :
    ActionKind.investigate ∈ gResubmit.night.actionsReceived ∧
    (investigateRetractExecute gResubmit "d1" (some "c3") none).1 =
      CmdResult.rejected CmdReject.targetDead ∧
    (investigateRetractExecute gResubmit "d1" (some "c3") none).2 ≠ gResubmit ∧
    (investigateRetractExecute gResubmit "d1" (some "c3") none).2.night.actionsReceived = [] := by
  decide

/-- C8 (amended): every rejection of `/kill`, `/vote`, `/protect` and
the strict `/investigate` leaves `GameState` unchanged; the
retract-variant `/investigate` also leaves the state unchanged whenever
no investigation was pending, but when one was pending its rejected
resubmissions return the state with the `investigate` mark already
spliced out of `actionsReceived` (nothing else is mutated). -/
theorem c8_rejection_state_amended :
    (∀ (g : GameState) (uid : String) (tU tN : Option String) (r : CmdReject),
      (killExecute g uid tU tN).1 = CmdResult.rejected r →
      (killExecute g uid tU tN).2 = g) ∧
    (∀ (g : GameState) (uid : String) (tU tN : Option String) (r : CmdReject),
      (voteExecute g uid tU tN).1 = CmdResult.rejected r →
      (voteExecute g uid tU tN).2 = g) ∧
    (∀ (g : GameState) (uid tid : String) (r : CmdReject),
      (protectExecute g uid tid).1 = CmdResult.rejected r →
      (protectExecute g uid tid).2 = g) ∧
    (∀ (g : GameState) (uid tid : String) (r : CmdReject),
      (investigateExecute g uid tid).1 = CmdResult.rejected r →
      (investigateExecute g uid tid).2 = g) ∧
    (∀ (g : GameState) (uid : String) (tU tN : Option String) (r : CmdReject),
      ActionKind.investigate ∉ g.night.actionsReceived →
      (investigateRetractExecute g uid tU tN).1 = CmdResult.rejected r →
      (investigateRetractExecute g uid tU tN).2 = g) ∧
    (∀ (g : GameState) (uid : String) (tU tN : Option String) (r : CmdReject),
      (investigateRetractExecute g uid tU tN).1 = CmdResult.rejected r →
      ((investigateRetractExecute g uid tU tN).2 = g ∨
        (investigateRetractExecute g uid tU tN).2 =
          { g with night := { g.night with actionsReceived :=
              g.night.actionsReceived.erase ActionKind.investigate } })) := by
  refine ⟨?_, ?_, ?_, ?_, ?_, ?_⟩
  · intro g uid tU tN r h
    rcases killExecute_cases g uid tU tN with hc | hc
    · rw [h] at hc
      exact absurd hc (by simp)
    · exact hc
  · intro g uid tU tN r h
    rcases voteExecute_cases g uid tU tN with hc | hc
    · rw [h] at hc
      exact absurd hc (by simp)
    · exact hc
  · intro g uid tid r h
    rcases protectExecute_cases g uid tid with hc | hc
    · rw [h] at hc
      exact absurd hc (by simp)
    · exact hc
  · intro g uid tid r h
    rcases investigateExecute_cases g uid tid with hc | hc
    · rw [h] at hc
      exact absurd hc (by simp)
    · exact hc
  · intro g uid tU tN r hnm h
    rcases investigateRetractExecute_cases g uid tU tN with hc | hc | hc
    · rw [h] at hc
      exact absurd hc (by simp)
    · exact hc
    · exact absurd hc.1 hnm
  · intro g uid tU tN r h
    rcases investigateRetractExecute_cases g uid tU tN with hc | hc | hc
    · rw [h] at hc
      exact absurd hc (by simp)
    · exact Or.inl hc
    · exact Or.inr hc.2

/-- C8 amended-claim witness: a dead civilian trying `/kill` is rejected
and the state is untouched; the concrete rejected resubmission leaves
exactly the retraction behind. -/
theorem c8_rejection_state_amended_witness :
    ((killExecute gKillRecorded "c1" (some "m1") none).1 =
        CmdResult.rejected CmdReject.notEligible ∧
      (killExecute gKillRecorded "c1" (some "m1") none).2 = gKillRecorded) ∧
    ((investigateRetractExecute gResubmit "d1" (some "c3") none).2 =
        gResubmit ∨
      (investigateRetractExecute gResubmit "d1" (some "c3") none).2 =
        { gResubmit with
          night := { gResubmit.night with
                     actionsReceived :=
                       gResubmit.night.actionsReceived.erase
                         ActionKind.investigate } }) := by
  refine ⟨⟨by decide, ?_⟩, ?_⟩
  · exact c8_rejection_state_amended.1 gKillRecorded "c1" (some "m1") none
      CmdReject.notEligible (by decide)
  · exact c8_rejection_state_amended.2.2.2.2.2 gResubmit "d1" (some "c3") none
      CmdReject.targetDead (by decide)

/-- C3: vote resolution against the tally rebuilt from the votes map
(the invariant `updateVoteTally` maintains): no votes means nobody's
alive flag changes; a shared maximum count means nobody is eliminated;
a unique maximum eliminates exactly that target; and the round is
incremented exactly when the subsequent win check returns null.  Also:
`updateVoteTally`, when its message edit path is reachable, stores
exactly `rebuildTally votes`. -/
theorem c3_resolveVote_tally (s : EngineState)
    (hph : s.game.phase = Phase.vote) (hm : s.voteMarker = false)
    (htally : s.game.vote.tally = rebuildTally s.game.vote.votes) :
    (s.game.vote.votes = [] →
      (resolveVote true s).game.players = s.game.players) ∧
    (2 ≤ ((s.game.vote.tally.filter
        (fun e => e.2 == maxCount s.game.vote.tally)).length) →
      (resolveVote true s).game.players = s.game.players) ∧
    (∀ t c, s.game.vote.tally.filter
        (fun e => e.2 == maxCount s.game.vote.tally) = [(t, c)] →
      (resolveVote true s).game.players = applyKillTo s.game.players t) ∧
    ((resolveVote true s).game.round = s.game.round + 1 ↔
      checkWin (applyVoteElim (clearTimersG s.game)) = none) ∧
    (∀ g : GameState, g.tallyMessageId ≠ none →
      (updateVoteTallyCore true g).vote.tally = rebuildTally g.vote.votes) := by
  have hg : (resolveVote true s).game =
      voteContinue (applyVoteElim (clearTimersG s.game)) := by
    simp [resolveVote, resolveVoteBody, hph, hm]
  have hct : (clearTimersG s.game).vote.tally = s.game.vote.tally := rfl
  refine ⟨?_, ?_, ?_, ?_, ?_⟩
  · intro hv
    have hnil : s.game.vote.tally = [] := by
      rw [htally, hv]
      rfl
    have hnone : voteTopTarget (clearTimersG s.game).vote.tally = none := by
      rw [hct, hnil]
      simp [voteTopTarget, sortedTallyEntries, List.mergeSort_nil]
    rw [hg, voteContinue_players, applyVoteElim_players_of_none _ hnone]
    rfl
  · intro htie
    have hnone : voteTopTarget (clearTimersG s.game).vote.tally = none := by
      rw [hct]
      exact voteTopTarget_tie s.game.vote.tally htie
    rw [hg, voteContinue_players, applyVoteElim_players_of_none _ hnone]
    rfl
  · intro t c huniq
    have hsome : voteTopTarget (clearTimersG s.game).vote.tally = some t := by
      rw [hct]
      exact voteTopTarget_unique s.game.vote.tally t c huniq
    rw [hg, voteContinue_players, applyVoteElim_players_of_top _ t hsome]
    rfl
  · rw [hg, voteContinue_round]
    cases hcw : checkWin (applyVoteElim (clearTimersG s.game)) with
    | none => simp [applyVoteElim_round, clearTimersG]
    | some w => simp [applyVoteElim_round, clearTimersG]
  · intro g hmsg
    unfold updateVoteTallyCore
    rw [if_neg hmsg]
    simp

/-- C3 witness: four concrete votes with a 3–1 plurality on `c1`; the
tally is the rebuild of the votes, `c1` is eliminated, and the round
increment matches the win check. -/
theorem c3_resolveVote_tally_witness :
    gVoteDecided.vote.tally = rebuildTally gVoteDecided.vote.votes ∧
    (resolveVote true engVoteDecided).game.players =
      applyKillTo gVoteDecided.players "c1" ∧
    ((resolveVote true engVoteDecided).game.round =
        gVoteDecided.round + 1 ↔
      checkWin (applyVoteElim (clearTimersG gVoteDecided)) = none) := by
  refine ⟨by decide, ?_, ?_⟩
  · exact (c3_resolveVote_tally engVoteDecided rfl rfl (by decide)).2.2.1
      "c1" 3 (by decide)
  · exact (c3_resolveVote_tally engVoteDecided rfl rfl (by decide)).2.2.2.1

/-- C9: `assignRoles` — for a 5–8 player identity list, every identity
receives exactly one role and the assigned role multiset equals the
balance-table entry for that count (whatever the random oracle does);
any other length (including 0) fails with the invalid-player-count
error. -/
theorem c9_assignRoles_spec :
    (∀ n, (BALANCE_TABLE n).isSome ↔ (5 ≤ n ∧ n ≤ 8)) ∧
    (∀ (r : Nat → Nat) (ids : List String) (b : RoleBalance),
      BALANCE_TABLE ids.length = some b →
      ∃ m, assignRoles r ids = Except.ok m ∧
        m.map Prod.fst = ids ∧
        (ids.Nodup → ∀ id0 ∈ ids,
          (m.filter (fun e => e.1 == id0)).length = 1) ∧
        (m.map Prod.snd).count Role.mafia = b.mafia ∧
        (m.map Prod.snd).count Role.detective = b.detective ∧
        (m.map Prod.snd).count Role.doctor = b.doctor ∧
        (m.map Prod.snd).count Role.civilian = b.civilian) ∧
    (∀ (r : Nat → Nat) (ids : List String),
      BALANCE_TABLE ids.length = none →
      assignRoles r ids = Except.error (invalidPlayerCountMsg ids.length)) ∧
    BALANCE_TABLE 5 =
      some { mafia := 1, detective := 1, doctor := 0, civilian := 3 } ∧
    BALANCE_TABLE 6 =
      some { mafia := 1, detective := 1, doctor := 1, civilian := 3 } ∧
    BALANCE_TABLE 7 =
      some { mafia := 2, detective := 1, doctor := 1, civilian := 3 } ∧
    BALANCE_TABLE 8 =
      some { mafia := 2, detective := 1, doctor := 1, civilian := 4 } := by
  refine ⟨?_, ?_, ?_, rfl, rfl, rfl, rfl⟩
  · intro n
    rw [BALANCE_TABLE_eq]
    split_ifs with h1 h2 h3 h4 <;> simp <;> omega
  · intro r ids b hb
    have hb0 := hb
    rw [BALANCE_TABLE_eq] at hb
    split_ifs at hb with h1 h2 h3 h4
    · obtain rfl : b = (⟨1, 1, 0, 3⟩ : RoleBalance) :=
        (Option.some.inj hb).symm
      have hlen : (baseRoles (⟨1, 1, 0, 3⟩ : RoleBalance)).length =
          ids.length := by rw [h1]; rfl
      obtain ⟨hok, hfst, hperm⟩ := assignRoles_ok r ids _ hb0 hlen
      exact ⟨_, hok, hfst,
        fun hnd id0 hm0 => filter_fst_length_one _ ids hfst hnd id0 hm0,
        (hperm.count_eq Role.mafia).trans (by decide),
        (hperm.count_eq Role.detective).trans (by decide),
        (hperm.count_eq Role.doctor).trans (by decide),
        (hperm.count_eq Role.civilian).trans (by decide)⟩
    · obtain rfl : b = (⟨1, 1, 1, 3⟩ : RoleBalance) :=
        (Option.some.inj hb).symm
      have hlen : (baseRoles (⟨1, 1, 1, 3⟩ : RoleBalance)).length =
          ids.length := by rw [h2]; rfl
      obtain ⟨hok, hfst, hperm⟩ := assignRoles_ok r ids _ hb0 hlen
      exact ⟨_, hok, hfst,
        fun hnd id0 hm0 => filter_fst_length_one _ ids hfst hnd id0 hm0,
        (hperm.count_eq Role.mafia).trans (by decide),
        (hperm.count_eq Role.detective).trans (by decide),
        (hperm.count_eq Role.doctor).trans (by decide),
        (hperm.count_eq Role.civilian).trans (by decide)⟩
    · obtain rfl : b = (⟨2, 1, 1, 3⟩ : RoleBalance) :=
        (Option.some.inj hb).symm
      have hlen : (baseRoles (⟨2, 1, 1, 3⟩ : RoleBalance)).length =
          ids.length := by rw [h3]; rfl
      obtain ⟨hok, hfst, hperm⟩ := assignRoles_ok r ids _ hb0 hlen
      exact ⟨_, hok, hfst,
        fun hnd id0 hm0 => filter_fst_length_one _ ids hfst hnd id0 hm0,
        (hperm.count_eq Role.mafia).trans (by decide),
        (hperm.count_eq Role.detective).trans (by decide),
        (hperm.count_eq Role.doctor).trans (by decide),
        (hperm.count_eq Role.civilian).trans (by decide)⟩
    · obtain rfl : b = (⟨2, 1, 1, 4⟩ : RoleBalance) :=
        (Option.some.inj hb).symm
      have hlen : (baseRoles (⟨2, 1, 1, 4⟩ : RoleBalance)).length =
          ids.length := by rw [h4]; rfl
      obtain ⟨hok, hfst, hperm⟩ := assignRoles_ok r ids _ hb0 hlen
      exact ⟨_, hok, hfst,
        fun hnd id0 hm0 => filter_fst_length_one _ ids hfst hnd id0 hm0,
        (hperm.count_eq Role.mafia).trans (by decide),
        (hperm.count_eq Role.detective).trans (by decide),
        (hperm.count_eq Role.doctor).trans (by decide),
        (hperm.count_eq Role.civilian).trans (by decide)⟩
  · intro r ids h
    simp [assignRoles, h]

/-- C9 witness: a concrete 5-identity assignment with the always-0
oracle, and the invalid-count failure on a single identity. -/
theorem c9_assignRoles_spec_witness :
    (∃ m, assignRoles (fun _ => 0) ["p1", "p2", "p3", "p4", "p5"] =
        Except.ok m ∧
      m.map Prod.fst = ["p1", "p2", "p3", "p4", "p5"] ∧
      (["p1", "p2", "p3", "p4", "p5"].Nodup →
        ∀ id0 ∈ ["p1", "p2", "p3", "p4", "p5"],
          (m.filter (fun e => e.1 == id0)).length = 1) ∧
      (m.map Prod.snd).count Role.mafia = 1 ∧
      (m.map Prod.snd).count Role.detective = 1 ∧
      (m.map Prod.snd).count Role.doctor = 0 ∧
      (m.map Prod.snd).count Role.civilian = 3) ∧
    assignRoles (fun _ => 0) ["a"] =
      Except.error (invalidPlayerCountMsg 1) :=
  ⟨c9_assignRoles_spec.2.1 (fun _ => 0) ["p1", "p2", "p3", "p4", "p5"]
      { mafia := 1, detective := 1, doctor := 0, civilian := 3 } (by decide),
   c9_assignRoles_spec.2.2.1 (fun _ => 0) ["a"] (by decide)⟩

end Mafia
